import Mathlib

/-!
# Verification of the DAW-Basic language engine (`src/dawbasic.cpp`)

This file is a shallow embedding of the parts of the DAW-Basic interpreter
that the checked claims are about, together with theorems settling those
claims.  The embedding follows `src/dawbasic.cpp` (the current revision of
the engine; `integer` is `int32_t`, `real` is `double`, a `BasicValue` is a
`(ValueType, boost::any)` pair, and the engine maps are keyed by
`std::string`).

Conventions of the embedding:
* C++ `std::string` values are modelled as `List Char`.
* `integer` (`int32_t`) is modelled as `Int`; overflowing arithmetic is
  undefined behaviour in the source and no claim exercises it, so no
  wrap-around is applied to `integer` arithmetic.  `size_t` arithmetic
  (which wraps, and where the wrap is reachable) is reduced mod `2^64`.
* `real` (`double`) is modelled as `Float`; no claim exercises real
  arithmetic.
* C++ exceptions are modelled with `Except Failure`; undefined behaviour
  (popping an empty stack, iterator arithmetic out of range) is mapped to
  the dedicated `Failure.ub` constructor so that it can never be mistaken
  for a defined result.
-/

namespace DawBasic

/-- Models `enum class ErrorTypes { SYNTAX, FATAL }` from `dawbasic.h`.
The constructor names carry an `_ERROR` suffix for technical reasons;
`SYNTAX_ERROR` is the source's `SYNTAX`, `FATAL_ERROR` its `FATAL`. -/
inductive ErrorTypes where
  | SYNTAX_ERROR
  | FATAL_ERROR
deriving DecidableEq, Repr

/-- Models `struct BasicException` : message plus error kind. -/
structure BasicException where
  msg : List Char
  error_type : ErrorTypes
deriving DecidableEq, Repr

/-- Everything a modelled operation can fail with:
* `ex` — a thrown `BasicException`;
* `std_ex` — a thrown `std::exception` that is not a `BasicException`
  (e.g. `boost::bad_lexical_cast`, `boost::bad_any_cast`);
* `ub` — undefined behaviour in the source (popping an empty stack,
  out-of-range iterator arithmetic, exhausted modelling fuel). -/
inductive Failure where
  | ex (e : BasicException)
  | std_ex (msg : List Char)
  | ub (msg : List Char)

/-- Models `create_basic_exception` (the free function in the anonymous namespace):
prefixes the message with the error-kind banner.  The member function
`Basic::create_basic_exception` additionally appends, in DEFERRED mode,
`"\nError on line " + m_program_it->first` — but that `+` is `const char*`
pointer arithmetic, not concatenation, so what is appended is a tail of the
string literal (undefined behaviour for line numbers past its length).
That formatting artefact is not modelled; no claim depends on it.  -/
def create_basic_exception (error_type : ErrorTypes) (msg : List Char) : Failure :=
  match error_type with
  | ErrorTypes.SYNTAX_ERROR => Failure.ex ⟨("SYNTAX ERROR: ".data) ++ msg, ErrorTypes.SYNTAX_ERROR⟩
  | ErrorTypes.FATAL_ERROR => Failure.ex ⟨("FATAL ERROR: ".data) ++ msg, ErrorTypes.FATAL_ERROR⟩

/-- Models `enum class ValueType { EMPTY, STRING, INTEGER, REAL, BOOLEAN, ARRAY }`. -/
inductive ValueType where
  | EMPTY
  | STRING
  | INTEGER
  | REAL
  | BOOLEAN
  | ARRAY
deriving DecidableEq, Repr

/-- Models `BasicValue = std::pair<ValueType, boost::any>`, modelled as a sum.
The `ARRAY` tag of `ValueType` is never attached to a `BasicValue` by the
engine (arrays live in their own table), so it has no constructor here. -/
inductive BasicValue where
  | empty_v
  | string_v (s : List Char)
  | integer_v (i : Int)
  | real_v (r : Float)
  | boolean_v (b : Bool)

/-- Models `value.first` — the `ValueType` tag of a `BasicValue`. -/
def value_first (value : BasicValue) : ValueType :=
  match value with
  | BasicValue.empty_v => ValueType.EMPTY
  | BasicValue.string_v _ => ValueType.STRING
  | BasicValue.integer_v _ => ValueType.INTEGER
  | BasicValue.real_v _ => ValueType.REAL
  | BasicValue.boolean_v _ => ValueType.BOOLEAN

/-- Models `EMPTY_BASIC_VALUE`. -/
def EMPTY_BASIC_VALUE : BasicValue := BasicValue.empty_v

/-- Models `to_integer(BasicValue)` = `boost::any_cast<integer>`: succeeds only on
the INTEGER payload, otherwise throws `boost::bad_any_cast`. -/
def to_integer_value (value : BasicValue) : Except Failure Int :=
  match value with
  | BasicValue.integer_v i => Except.ok i
  | _ => Except.error (Failure.std_ex "boost::bad_any_cast".data)

/-- Models `to_real(BasicValue)` = `boost::any_cast<real>`. -/
def to_real_value (value : BasicValue) : Except Failure Float :=
  match value with
  | BasicValue.real_v r => Except.ok r
  | _ => Except.error (Failure.std_ex "boost::bad_any_cast".data)

/-- Models `to_numeric`: defined on INTEGER/REAL, FATAL otherwise. -/
def to_numeric (value : BasicValue) : Except Failure Float :=
  match value with
  | BasicValue.integer_v i => Except.ok (Float.ofInt i)
  | BasicValue.real_v r => Except.ok r
  | _ => Except.error (create_basic_exception ErrorTypes.FATAL_ERROR
      "Cannot convert non-numeric types to a number".data)

/-- Models `to_boolean`: defined on BOOLEAN, FATAL otherwise. -/
def to_boolean (value : BasicValue) : Except Failure Bool :=
  match value with
  | BasicValue.boolean_v b => Except.ok b
  | _ => Except.error (create_basic_exception ErrorTypes.FATAL_ERROR
      "Attempt to convert a non-boolean to a boolean".data)

/-- Models `determine_result_type(lhs_type, rhs_type)`, transcribed from the
`if`/`switch` chain in `dawbasic.cpp` (all uncovered cases fall through to
`ValueType::EMPTY`). -/
def determine_result_type (lhs_type rhs_type : ValueType) : ValueType :=
  if lhs_type = ValueType.INTEGER then
    match rhs_type with
    | ValueType.STRING => ValueType.STRING
    | ValueType.INTEGER => ValueType.INTEGER
    | ValueType.REAL => ValueType.REAL
    | _ => ValueType.EMPTY
  else if lhs_type = ValueType.REAL then
    match rhs_type with
    | ValueType.INTEGER => ValueType.REAL
    | ValueType.REAL => ValueType.REAL
    | ValueType.STRING => ValueType.STRING
    | _ => ValueType.EMPTY
  else if lhs_type = ValueType.STRING then
    match rhs_type with
    | ValueType.INTEGER => ValueType.STRING
    | ValueType.REAL => ValueType.STRING
    | ValueType.STRING => ValueType.STRING
    | _ => ValueType.EMPTY
  else if lhs_type = ValueType.BOOLEAN then
    match rhs_type with
    | ValueType.BOOLEAN => ValueType.BOOLEAN
    | _ => ValueType.EMPTY
  else ValueType.EMPTY

/-- Models `value_type_to_string(ValueType)` (total on the five tags that can occur
on a `BasicValue`; the `ARRAY` case of the source returns `"Array"`). -/
def value_type_to_string (value_type : ValueType) : List Char :=
  match value_type with
  | ValueType.BOOLEAN => "Boolean".data
  | ValueType.EMPTY => "Empty".data
  | ValueType.INTEGER => "Integer".data
  | ValueType.REAL => "Real".data
  | ValueType.ARRAY => "Array".data
  | ValueType.STRING => "String".data

/-- Models `operator_rank`: the precedence table (smaller rank binds tighter);
unknown operators are a FATAL error. -/
def operator_rank (oper : List Char) : Except Failure Int :=
  if oper = "NEG".data then Except.ok 1
  else if oper = "^".data then Except.ok 2
  else if oper = "*".data ∨ oper = "/".data then Except.ok 3
  else if oper = "+".data ∨ oper = "-".data ∨ oper = "%".data then Except.ok 4
  else if oper = ">>".data ∨ oper = "<<".data then Except.ok 5
  else if oper = ">".data ∨ oper = ">=".data ∨ oper = "<".data ∨ oper = "<=".data then Except.ok 6
  else if oper = "=".data then Except.ok 7
  else if oper = "AND".data then Except.ok 8
  else if oper = "OR".data then Except.ok 9
  else Except.error (create_basic_exception ErrorTypes.FATAL_ERROR
      "Unknown operator passed to operator_rank".data)

/-! ## Character and string utilities -/

/-- ASCII upper-casing of one character (`boost::algorithm::to_upper` under
the default/C locale, which is what the engine uses for name probes). -/
def upper_char (c : Char) : Char :=
  if 'a' ≤ c ∧ c ≤ 'z' then Char.ofNat (c.toNat - 32) else c

/-- Models `boost::algorithm::to_upper_copy` on a string. -/
def to_upper_copy (s : List Char) : List Char := s.map upper_char

/-- Models `std::isspace` in the C locale (space, \t, \n, \v, \f, \r) — the
character class used by `boost::algorithm::trim`. -/
def is_space_c (c : Char) : Bool :=
  c = ' ' ∨ c = '\t' ∨ c = '\n' ∨ c = '\x0b' ∨ c = '\x0c' ∨ c = '\r'

/-- Models `boost::algorithm::trim_copy`. -/
def trim_copy (s : List Char) : List Char :=
  (s.dropWhile is_space_c).reverse.dropWhile is_space_c |>.reverse

/-- Models `value[pos]` on a `std::string`: in range it is the character, at
`pos == size()` it is `'\0'` (guaranteed since C++11).  The engine never
indexes past `size()` on the paths modelled here. -/
def char_at (s : List Char) (pos : Nat) : Char := s.getD pos '\x00'

/-- Models `char_to_string(chr)`. -/
def char_to_string (chr : Char) : List Char := [chr]

/-- Models `value.substr(pos)` — the suffix from `pos` (the callers modelled here
always satisfy `pos <= size()`, the bound `substr` requires). -/
def substr_from (s : List Char) (pos : Nat) : List Char := s.drop pos

/-- Models `value.substr(pos, count)`. -/
def substr (s : List Char) (pos count : Nat) : List Char := (s.drop pos).take count

/-- Models `remove_outer_characters(value, lhs, rhs)`. -/
def remove_outer_characters (value : List Char) (lhs rhs : Char) : List Char :=
  if 2 ≤ value.length ∧ char_at value 0 = lhs ∧ char_at value (value.length - 1) = rhs then
    substr value 1 (value.length - 2)
  else value

/-- Models `remove_outer_quotes`. -/
def remove_outer_quotes (value : List Char) : List Char :=
  remove_outer_characters value '"' '"'

/-- Models `remove_outer_bracket`. -/
def remove_outer_bracket (value : List Char) : List Char :=
  remove_outer_characters value '(' ')'

/-- Models `replace_all(str, from, to)`: repeatedly find `pat` and replace it by
`rep`, resuming the search after the inserted text (so the replacement is
never rescanned) — equivalent to a single left-to-right scan. -/
def replace_all_go (pat rep : List Char) : Nat → List Char → List Char
  | 0, str => str
  | Nat.succ f, str =>
    match str with
    | [] => []
    | c :: rest =>
      if pat.isPrefixOf (c :: rest) then
        rep ++ replace_all_go pat rep f (rest.drop (pat.length - 1))
      else c :: replace_all_go pat rep f rest

/-- Models `replace_all` proper; the scan consumes at least one character per step,
so `str.length` steps always suffice. -/
def replace_all (str pat rep : List Char) : List Char :=
  if pat = [] then str else replace_all_go pat rep str.length str

/-- Models `get_value_type(std::string value, locale, trim_ws)` — classification of
a token by shape, with `'.'` as the decimal point (C locale) and ASCII
digits.  Scans after an optional leading `'-'`; a second `'-'`, a second
`'.'`, a trailing `'.'`, or any non-digit makes it STRING. -/
def get_value_type_scan (s : List Char) (has_decimal : Bool) : ValueType :=
  match s with
  | [] => if has_decimal then ValueType.REAL else ValueType.INTEGER
  | c :: rest =>
    if c = '-' then ValueType.STRING
    else if c = '.' then
      if has_decimal ∨ rest = [] then ValueType.STRING
      else get_value_type_scan rest true
    else if c.isDigit then get_value_type_scan rest has_decimal
    else ValueType.STRING

/-- Models `get_value_type` on a string (the `trim_ws = true` default). -/
def get_value_type_str (value : List Char) : ValueType :=
  let value := trim_copy value
  match value with
  | [] => ValueType.EMPTY
  | c :: rest =>
    if c = '-' then get_value_type_scan rest false
    else get_value_type_scan value false

/-- Models `boost::lexical_cast<integer>` on a string: strict parse of an optional
sign followed by decimal digits, rejecting empty digit sequences and values
outside `int32_t` (a failed cast throws `boost::bad_lexical_cast`). -/
def digits_to_nat (s : List Char) : Option Nat :=
  match s with
  | [] => some 0
  | c :: rest =>
    if c.isDigit then
      match digits_to_nat rest with
      | some n => some ((c.toNat - '0'.toNat) * 10 ^ rest.length + n)
      | none => none
    else none

/-- Models `to_integer(std::string)`. -/
def to_integer_str (value : List Char) : Except Failure Int :=
  let fail : Except Failure Int := Except.error (Failure.std_ex "boost::bad_lexical_cast".data)
  match value with
  | [] => fail
  | c :: rest =>
    let digits : List Char := if c = '-' ∨ c = '+' then rest else value
    let sign : Int := if c = '-' then -1 else 1
    if digits = [] then fail
    else
      match digits_to_nat digits with
      | none => fail
      | some n =>
        let i : Int := sign * (n : Int)
        if -(2 ^ 31) ≤ i ∧ i ≤ 2 ^ 31 - 1 then Except.ok i else fail

/-- Models `split_in_two_on_char(parse_string, separator)`: trim, split at the
first occurrence, trim the parts; one part if the separator is absent. -/
def split_in_two_on_char (parse_string : List Char) (separator : Char) :
    List (List Char) :=
  let parse_string := trim_copy parse_string
  match parse_string.findIdx? (fun c => c = separator) with
  | some pos =>
    [trim_copy (parse_string.take pos), trim_copy (parse_string.drop (pos + 1))]
  | none => [parse_string]

/-! ## Lexical scanners -/

/-- The scanning loop of `find_end_of_string`: position `pos` runs over the
string; a `'"'` not preceded by `'\'` closes.  Returns the index of the
closing quote, or SYNTAX if none.  The countdown `remaining` is
`value.length - pos`, so the recursion is structural. -/
def find_end_of_string_loop (value : List Char) (pos : Nat) :
    (remaining : Nat) → Except Failure Nat
  | 0 =>
    Except.error (create_basic_exception ErrorTypes.SYNTAX_ERROR
      "Could not find end of quoted string, not closing quotes".data)
  | Nat.succ rem =>
    if char_at value pos = '"' ∧ ¬(pos ≠ 0 ∧ char_at value (pos - 1) = '\\') then
      Except.ok pos
    else find_end_of_string_loop value (pos + 1) rem

/-- Models `find_end_of_string(value)`. -/
def find_end_of_string (value : List Char) : Except Failure Nat :=
  let start : Nat := if char_at value 0 = '"' then 1 else 0
  find_end_of_string_loop value start (value.length - start)

/-- The scanning loop of `find_end_of_bracket` (bracket depth starts at 1);
`remaining` counts down to the end of the string. -/
def find_end_of_bracket_loop (value : List Char) (pos : Nat) (bracket_count : Int) :
    (remaining : Nat) → Except Failure Nat
  | 0 =>
    Except.error (create_basic_exception ErrorTypes.SYNTAX_ERROR
      "Unclosed bracket found".data)
  | Nat.succ rem =>
    if char_at value pos = '(' then
      find_end_of_bracket_loop value (pos + 1) (bracket_count + 1) rem
    else if char_at value pos = ')' then
      if bracket_count - 1 = 0 then Except.ok pos
      else find_end_of_bracket_loop value (pos + 1) (bracket_count - 1) rem
    else find_end_of_bracket_loop value (pos + 1) bracket_count rem

/-- Models `find_end_of_bracket(value)`: the first character either is `')'`
(return 0) or is assumed to open one level; find the matching `')'`. -/
def find_end_of_bracket (value : List Char) : Except Failure Nat :=
  if char_at value 0 = ')' then Except.ok 0
  else find_end_of_bracket_loop value 1 1 (value.length - 1)

/-- The terminator set of `find_end_of_operand`. -/
def operand_end_chars : List Char :=
  [' ', '\t', '^', '*', '/', '+', '-', '=', '<', '>', '%']

/-- The scanning loop of `find_end_of_operand`.  Returns the index of the
last character of the operand as an `Int` (the source returns `pos - 1`,
which would be `-1` for a terminator at position 0).  The SYNTAX messages
are built with `const char* + int` pointer arithmetic in the source, so the
actual message is the tail of the literal starting at index `pos`. -/
def find_end_of_operand_loop (value : List Char) (pos : Nat) (bracket_count : Int)
    (has_brackets : Bool) : (fuel : Nat) → Except Failure Int
  | 0 => Except.error (Failure.ub "out of fuel".data)
  | Nat.succ rem =>
    if ¬ pos < value.length then Except.ok ((value.length : Int) - 1)
    else
    let current_char := char_at value pos
    if bracket_count ≤ 0 then
      if current_char = '"' then
        Except.error (create_basic_exception ErrorTypes.SYNTAX_ERROR
          (substr_from "Unexpected quote \" character at position ".data pos))
      else if current_char = ')' then
        Except.error (create_basic_exception ErrorTypes.SYNTAX_ERROR
          (substr_from "Unexpected close bracket ) character at position ".data pos))
      else if current_char ∈ operand_end_chars then
        Except.ok ((pos : Int) - 1)
      else if current_char = '(' then
        if has_brackets then
          Except.error (create_basic_exception ErrorTypes.SYNTAX_ERROR
            (substr_from "Unexpected opening bracket after brackets have closed at position ".data pos))
        else find_end_of_operand_loop value (pos + 1) (bracket_count + 1) true rem
      else find_end_of_operand_loop value (pos + 1) bracket_count has_brackets rem
    else
      if current_char = '"' then
        match find_end_of_string (substr_from value pos) with
        | Except.error e => Except.error e
        | Except.ok n =>
          -- the loop advances past the scanned quoted section:
          -- `pos += n` then `++pos`
          find_end_of_operand_loop value (pos + n + 1) bracket_count has_brackets rem
      else if current_char = ')' then
        find_end_of_operand_loop value (pos + 1) (bracket_count - 1) has_brackets rem
      else if current_char = '(' then
        find_end_of_operand_loop value (pos + 1) (bracket_count + 1) has_brackets rem
      else find_end_of_operand_loop value (pos + 1) bracket_count has_brackets rem

/-- Models `find_end_of_operand(value)`.  Every iteration advances the position by
at least one, so `value.length + 1` fuel always reaches the source's own
exit conditions. -/
def find_end_of_operand (value : List Char) : Except Failure Int :=
  find_end_of_operand_loop value 0 0 false (value.length + 1)

/-! ## Value constructors and conversions -/

/-- Models `basic_value_integer(integer)`. -/
def basic_value_integer (value : Int) : BasicValue := BasicValue.integer_v value

/-- Models `basic_value_real(real)`. -/
def basic_value_real (value : Float) : BasicValue := BasicValue.real_v value

/-- Models `basic_value_boolean(boolean)`. -/
def basic_value_boolean (value : Bool) : BasicValue := BasicValue.boolean_v value

/-- Models `basic_value_string(std::string)`. -/
def basic_value_string (value : List Char) : BasicValue := BasicValue.string_v value

/-- Models `basic_value_integer(std::string)` — `lexical_cast` then wrap. -/
def basic_value_integer_str (value : List Char) : Except Failure BasicValue := do
  let i ← to_integer_str value
  return basic_value_integer i

/-- Models `to_real(std::string)` = `boost::lexical_cast<real>`.  The callers only
reach this with strings already classified REAL by `get_value_type`
(digits with one interior decimal point, optional sign), and for those
`strtod`-style correctly-rounded conversion is `Float.ofScientific` on the
digit string. -/
def to_real_str (value : List Char) : Except Failure Float :=
  let fail : Except Failure Float := Except.error (Failure.std_ex "boost::bad_lexical_cast".data)
  match value with
  | [] => fail
  | c :: rest =>
    let digits : List Char := if c = '-' ∨ c = '+' then rest else value
    let intpart := digits.takeWhile (fun ch => ch ≠ '.')
    let fracpart := (digits.dropWhile (fun ch => ch ≠ '.')).drop 1
    if digits = [] ∨ ¬ intpart.all Char.isDigit ∨ ¬ fracpart.all Char.isDigit then fail
    else
      match digits_to_nat (intpart ++ fracpart) with
      | none => fail
      | some m =>
        let f := Float.ofScientific m true fracpart.length
        Except.ok (if c = '-' then Float.neg f else f)

/-- Models `basic_value_real(std::string)`. -/
def basic_value_real_str (value : List Char) : Except Failure BasicValue := do
  let r ← to_real_str value
  return basic_value_real r

/-- Models `std::stringstream << integer`. -/
def integer_to_chars (value : Int) : List Char := (toString value).data

/-- Models `to_string(BasicValue)`.  The REAL case streams with
`setprecision(digits10)`; `Float.toString` (shortest round-trip) stands in
for that formatting — no claim observes a REAL rendering. -/
def to_string_value (value : BasicValue) : List Char :=
  match value with
  | BasicValue.empty_v => []
  | BasicValue.integer_v i => integer_to_chars i
  | BasicValue.real_v r => (Float.toString r).data
  | BasicValue.string_v s => s
  | BasicValue.boolean_v b => if b then "TRUE".data else "FALSE".data

/-- Models `std::string::compare`, sign-faithfully: the engine only ever tests the
sign of the result, so the model returns `-1`/`0`/`1`.  Comparison is by
byte value (`char_traits<char>`), then by length. -/
def string_compare : List Char → List Char → Int
  | [], [] => 0
  | [], _ :: _ => -1
  | _ :: _, [] => 1
  | a :: as, b :: bs =>
    if a.toNat < b.toNat then -1
    else if b.toNat < a.toNat then 1
    else string_compare as bs

/-! ## Symbol environment -/

/-- The callable stored for a builtin function. -/
def FunctionImpl : Type := List BasicValue → Except Failure BasicValue

/-- Models `Basic::FunctionType` — description plus (possibly empty)
`std::function`. -/
structure FunctionType where
  description : List Char
  func : Option FunctionImpl

/-- Models `Basic::ConstantType`. -/
structure ConstantType where
  description : List Char
  value : BasicValue

/-- Models `Basic::BasicArray`: dimension vector plus flat storage. -/
structure BasicArray where
  m_dimensions : List Nat
  m_values : List BasicValue

/-- The engine maps are `std::map`/`std::unordered_map` keyed by
`std::string`; an association list with first-match lookup models them
(keys are unique by construction). -/
def map_find {α : Type} (kv_map : List (List Char × α)) (key : List Char) : Option α :=
  match kv_map with
  | [] => none
  | (k, v) :: rest => if k = key then some v else map_find rest key

/-- Models `m[key] = value` (`operator[]` upsert). -/
def map_set {α : Type} (kv_map : List (List Char × α)) (key : List Char) (value : α) :
    List (List Char × α) :=
  match kv_map with
  | [] => [(key, value)]
  | (k, v) :: rest => if k = key then (k, value) :: rest else (k, v) :: map_set rest key value

/-- Models `key_exists(kv_map, key)`: upper-cases the probe, then `find`. -/
def key_exists {α : Type} (kv_map : List (List Char × α)) (key : List Char) : Bool :=
  (map_find kv_map (to_upper_copy key)).isSome

/-- The symbol environment of one engine instance: the name tables of
`class Basic` that the modelled operations read and write.  Keyword
handlers close over the whole engine, so `m_keywords` keeps only the
registered names (which is all the modelled paths consult). -/
structure Env where
  m_variables : List (List Char × BasicValue)
  m_constants : List (List Char × ConstantType)
  m_arrays : List (List Char × BasicArray)
  m_functions : List (List Char × FunctionType)
  m_keywords : List (List Char)

/-- Models `Basic::is_constant`. -/
def is_constant (env : Env) (name : List Char) : Bool :=
  key_exists env.m_constants (to_upper_copy name)

/-- Models `Basic::is_variable` — true for variables *and* constants. -/
def is_variable (env : Env) (name : List Char) : Bool :=
  key_exists env.m_variables (to_upper_copy name) || is_constant env (to_upper_copy name)

/-- Models `Basic::is_array`. -/
def is_array (env : Env) (name : List Char) : Bool :=
  key_exists env.m_arrays (to_upper_copy name)

/-- Models `Basic::is_keyword`.  (The source's `name == to_upper_copy(name);` is a
discarded comparison, not an assignment; `key_exists` upper-cases the probe
itself, so the lookup is case-insensitive all the same.) -/
def is_keyword (env : Env) (name : List Char) : Bool :=
  (env.m_keywords).contains (to_upper_copy name)

/-- Models `Basic::is_function` (same discarded `==` as `is_keyword`). -/
def is_function (env : Env) (name : List Char) : Bool :=
  (map_find env.m_functions (to_upper_copy name)).isSome

/-- Models `Basic::exec_function`: upper-case the name; a missing entry
default-constructs an empty `std::function` (the insertion side effect is
invisible to every modelled path), and an empty callable is the FATAL
"expected function to exist" error. -/
def exec_function (env : Env) (name : List Char) (arguments : List BasicValue) :
    Except Failure BasicValue :=
  let name := to_upper_copy name
  match map_find env.m_functions name with
  | none =>
    Except.error (create_basic_exception ErrorTypes.FATAL_ERROR
      (("Expected function '".data ++ name) ++ "' to exist.  Could not find it".data))
  | some ft =>
    match ft.func with
    | none =>
      Except.error (create_basic_exception ErrorTypes.FATAL_ERROR
        (("Expected function '".data ++ name) ++ "' to exist.  Could not find it".data))
    | some f => f arguments

/-- The key set of `m_binary_operators` after `init()`. -/
def binary_operator_keys : List (List Char) :=
  ["*".data, "/".data, "+".data, "-".data, "^".data, "%".data, "=".data,
   "<".data, "<=".data, ">".data, ">=".data, "AND".data, "OR".data]

/-- Models `Basic::is_binary_operator` (probe upper-cased by `key_exists`). -/
def is_binary_operator (oper : List Char) : Bool :=
  binary_operator_keys.contains (to_upper_copy oper)

/-- Models `Basic::is_unary_operator`: the only registered unary operator is NEG. -/
def is_unary_operator (oper : List Char) : Bool :=
  to_upper_copy oper = "NEG".data

/-! ## Binary and unary operators -/

/-- Models `static_cast<integer>(double)`: truncation toward zero; casts whose
truncated value does not fit `int32_t` are undefined behaviour in the
source and are not refined further (no claim exercises them). -/
def double_to_integer_cast (f : Float) : Int :=
  if f < 0 then -(Int.ofNat (Float.toUInt64 (Float.neg f)).toNat)
  else Int.ofNat (Float.toUInt64 f).toNat

/-- Models `POW( base, exponent )` from `init()`. -/
def function_POW : FunctionImpl := fun value =>
  if value.length ≠ 2 then
    Except.error (create_basic_exception ErrorTypes.SYNTAX_ERROR
      "POW requires 2 parameters".data)
  else do
    let v0 := value.getD 0 EMPTY_BASIC_VALUE
    let v1 := value.getD 1 EMPTY_BASIC_VALUE
    if determine_result_type (value_first v0) (value_first v1) = ValueType.INTEGER then do
      let int_param1 ← to_integer_value v0
      let int_param2 ← to_integer_value v1
      -- C++ `pow` on two `integer`s promotes to double and casts back
      return basic_value_integer (double_to_integer_cast
        (Float.pow (Float.ofInt int_param1) (Float.ofInt int_param2)))
    else do
      let p1 ← to_numeric v0
      let p2 ← to_numeric v1
      return basic_value_real (Float.pow p1 p2)

/-- One registered binary operator applied to two values.  `m_binary_operators[oper]`
on an unregistered key default-constructs an empty `std::function`, and
invoking it raises `std::bad_function_call`. -/
def binary_operator (funcs : List (List Char × FunctionType)) (oper : List Char)
    (lhs rhs : BasicValue) : Except Failure BasicValue :=
  let result_type := determine_result_type (value_first lhs) (value_first rhs)
  if oper = "*".data then
    match result_type with
    | ValueType.INTEGER => do
      let a ← to_integer_value lhs; let b ← to_integer_value rhs
      return basic_value_integer (a * b)
    | ValueType.REAL => do
      let a ← to_numeric lhs; let b ← to_numeric rhs
      return basic_value_real (Float.mul a b)
    | _ => Except.error (create_basic_exception ErrorTypes.SYNTAX_ERROR
        "Attempt to multiply non-numeric types".data)
  else if oper = "/".data then
    match result_type with
    | ValueType.INTEGER => do
      let a ← to_integer_value lhs; let b ← to_integer_value rhs
      if b = 0 then Except.error (Failure.ub "integer division by zero".data)
      else return basic_value_integer (Int.tdiv a b)
    | ValueType.REAL => do
      let a ← to_numeric lhs; let b ← to_numeric rhs
      return basic_value_real (Float.div a b)
    | _ => Except.error (create_basic_exception ErrorTypes.SYNTAX_ERROR
        "Attempt to multiply non-numeric types".data)
  else if oper = "+".data then
    match result_type with
    | ValueType.INTEGER => do
      let a ← to_integer_value lhs; let b ← to_integer_value rhs
      return basic_value_integer (a + b)
    | ValueType.REAL => do
      let a ← to_numeric lhs; let b ← to_numeric rhs
      return basic_value_real (Float.add a b)
    | ValueType.STRING =>
      return basic_value_string (remove_outer_quotes (to_string_value lhs) ++
        remove_outer_quotes (to_string_value rhs))
    | _ => Except.error (create_basic_exception ErrorTypes.SYNTAX_ERROR
        "Attempt to add non-numeric types".data)
  else if oper = "-".data then
    match result_type with
    | ValueType.INTEGER => do
      let a ← to_integer_value lhs; let b ← to_integer_value rhs
      return basic_value_integer (a - b)
    | ValueType.REAL => do
      let a ← to_numeric lhs; let b ← to_numeric rhs
      return basic_value_real (Float.sub a b)
    | _ => Except.error (create_basic_exception ErrorTypes.SYNTAX_ERROR
        "Attempt to multiply non-numeric types".data)
  else if oper = "^".data then
    exec_function { m_variables := [], m_constants := [], m_arrays := [],
                    m_functions := funcs, m_keywords := [] } "POW".data [lhs, rhs]
  else if oper = "%".data then
    match result_type with
    | ValueType.INTEGER => do
      let a ← to_integer_value lhs; let b ← to_integer_value rhs
      if b = 0 then Except.error (Failure.ub "integer remainder by zero".data)
      else return basic_value_integer (Int.tmod a b)
    | _ => Except.error (create_basic_exception ErrorTypes.SYNTAX_ERROR
        "Attempt to do modular arithmetic with non-integers".data)
  else if oper = "=".data then
    match result_type with
    | ValueType.BOOLEAN => do
      let a ← to_boolean lhs; let b ← to_boolean rhs
      return basic_value_boolean (a = b)
    | ValueType.EMPTY =>
      if value_first lhs = value_first rhs then return basic_value_boolean true
      else Except.error (create_basic_exception ErrorTypes.SYNTAX_ERROR
        (("Attempt to compare different types ".data ++ value_type_to_string (value_first lhs)) ++
          (" and ".data ++ value_type_to_string (value_first rhs))))
    | ValueType.INTEGER => do
      let a ← to_integer_value lhs; let b ← to_integer_value rhs
      return basic_value_boolean (a = b)
    | ValueType.REAL => do
      let a ← to_numeric lhs; let b ← to_numeric rhs
      return basic_value_boolean (Float.beq a b)
    | ValueType.STRING =>
      return basic_value_boolean
        (string_compare (to_string_value lhs) (to_string_value rhs) = 0)
    | _ => Except.error (create_basic_exception ErrorTypes.FATAL_ERROR
        "Unknown ValueType".data)
  else if oper = "<".data then
    match result_type with
    | ValueType.BOOLEAN => do
      let a ← to_boolean lhs; let b ← to_boolean rhs
      return basic_value_boolean (a < b)
    | ValueType.EMPTY =>
      if value_first lhs = value_first rhs then return basic_value_boolean false
      else Except.error (create_basic_exception ErrorTypes.SYNTAX_ERROR
        (("Attempt to compare different types ".data ++ value_type_to_string (value_first lhs)) ++
          (" and ".data ++ value_type_to_string (value_first rhs))))
    | ValueType.INTEGER => do
      let a ← to_integer_value lhs; let b ← to_integer_value rhs
      return basic_value_boolean (a < b)
    | ValueType.REAL => do
      let a ← to_numeric lhs; let b ← to_numeric rhs
      return basic_value_boolean (Float.decLt a b).decide
    | ValueType.STRING =>
      return basic_value_boolean
        (0 < string_compare (to_string_value lhs) (to_string_value rhs))
    | _ => Except.error (create_basic_exception ErrorTypes.FATAL_ERROR
        "Unknown ValueType".data)
  else if oper = "<=".data then
    match result_type with
    | ValueType.BOOLEAN => do
      let a ← to_boolean lhs; let b ← to_boolean rhs
      return basic_value_boolean (a ≤ b)
    | ValueType.EMPTY =>
      if value_first lhs = value_first rhs then return basic_value_boolean true
      else Except.error (create_basic_exception ErrorTypes.SYNTAX_ERROR
        (("Attempt to compare different types ".data ++ value_type_to_string (value_first lhs)) ++
          (" and ".data ++ value_type_to_string (value_first rhs))))
    | ValueType.INTEGER => do
      let a ← to_integer_value lhs; let b ← to_integer_value rhs
      return basic_value_boolean (a ≤ b)
    | ValueType.REAL => do
      let a ← to_numeric lhs; let b ← to_numeric rhs
      return basic_value_boolean (Float.decLe a b).decide
    | ValueType.STRING =>
      return basic_value_boolean
        (0 ≤ string_compare (to_string_value lhs) (to_string_value rhs))
    | _ => Except.error (create_basic_exception ErrorTypes.FATAL_ERROR
        "Unknown ValueType".data)
  else if oper = ">".data then
    match result_type with
    | ValueType.BOOLEAN => do
      -- the source's BOOLEAN case of ">" really tests `>=`
      let a ← to_boolean lhs; let b ← to_boolean rhs
      return basic_value_boolean (b ≤ a)
    | ValueType.EMPTY =>
      if value_first lhs = value_first rhs then return basic_value_boolean false
      else Except.error (create_basic_exception ErrorTypes.SYNTAX_ERROR
        (("Attempt to compare different types ".data ++ value_type_to_string (value_first lhs)) ++
          (" and ".data ++ value_type_to_string (value_first rhs))))
    | ValueType.INTEGER => do
      let a ← to_integer_value lhs; let b ← to_integer_value rhs
      return basic_value_boolean (b < a)
    | ValueType.REAL => do
      let a ← to_numeric lhs; let b ← to_numeric rhs
      return basic_value_boolean (Float.decLt b a).decide
    | ValueType.STRING =>
      return basic_value_boolean
        (string_compare (to_string_value lhs) (to_string_value rhs) < 0)
    | _ => Except.error (create_basic_exception ErrorTypes.FATAL_ERROR
        "Unknown ValueType".data)
  else if oper = ">=".data then
    match result_type with
    | ValueType.BOOLEAN => do
      let a ← to_boolean lhs; let b ← to_boolean rhs
      return basic_value_boolean (b ≤ a)
    | ValueType.EMPTY =>
      if value_first lhs = value_first rhs then return basic_value_boolean true
      else Except.error (create_basic_exception ErrorTypes.SYNTAX_ERROR
        (("Attempt to compare different types ".data ++ value_type_to_string (value_first lhs)) ++
          (" and ".data ++ value_type_to_string (value_first rhs))))
    | ValueType.INTEGER => do
      let a ← to_integer_value lhs; let b ← to_integer_value rhs
      return basic_value_boolean (b ≤ a)
    | ValueType.REAL => do
      let a ← to_numeric lhs; let b ← to_numeric rhs
      return basic_value_boolean (Float.decLe b a).decide
    | ValueType.STRING =>
      return basic_value_boolean
        (string_compare (to_string_value lhs) (to_string_value rhs) ≤ 0)
    | _ => Except.error (create_basic_exception ErrorTypes.FATAL_ERROR
        "Unknown ValueType".data)
  else if oper = "AND".data then do
    -- `&&` short-circuits: a false left side skips the right conversion
    let a ← to_boolean lhs
    if a then do
      let b ← to_boolean rhs
      return basic_value_boolean b
    else return basic_value_boolean false
  else if oper = "OR".data then do
    let a ← to_boolean lhs
    if a then return basic_value_boolean true
    else do
      let b ← to_boolean rhs
      return basic_value_boolean b
  else Except.error (Failure.std_ex "std::bad_function_call".data)

/-- The registered unary operator `NEG`. -/
def unary_operator (oper : List Char) (lhs : BasicValue) : Except Failure BasicValue :=
  if oper = "NEG".data then
    match lhs with
    | BasicValue.integer_v i => Except.ok (basic_value_integer (-i))
    | BasicValue.real_v r => Except.ok (basic_value_real (Float.neg r))
    | _ => Except.error (create_basic_exception ErrorTypes.SYNTAX_ERROR
        "Attempt to apply a negative sign to a non-number".data)
  else Except.error (Failure.std_ex "std::bad_function_call".data)

/-! ## Builtin functions (the `add_function` registrations of `init()`) -/

/-- Shared one-numeric-parameter shape of COS/SIN/TAN/ATN/EXP/LOG/SQR. -/
def function_numeric1 (err : List Char) (op : Float → Float) : FunctionImpl := fun value =>
  if value.length ≠ 1 then
    Except.error (create_basic_exception ErrorTypes.SYNTAX_ERROR err)
  else do
    let dbl_param ← to_numeric (value.getD 0 EMPTY_BASIC_VALUE)
    return basic_value_real (op dbl_param)

/-- Models `SQUARE( x )`. -/
def function_SQUARE : FunctionImpl := fun value =>
  if value.length ≠ 1 then
    Except.error (create_basic_exception ErrorTypes.SYNTAX_ERROR
      "SQR requires 1 parameter".data)
  else
    match value.getD 0 EMPTY_BASIC_VALUE with
    | BasicValue.integer_v i => Except.ok (basic_value_integer (i * i))
    | v => do
      let d ← to_numeric v
      return basic_value_real (Float.mul d d)

/-- Models `ABS( x )`. -/
def function_ABS : FunctionImpl := fun value =>
  if value.length ≠ 1 then
    Except.error (create_basic_exception ErrorTypes.SYNTAX_ERROR
      "SIN requires 1 parameter".data)
  else
    match value.getD 0 EMPTY_BASIC_VALUE with
    | BasicValue.integer_v i => Except.ok (basic_value_integer (if 0 > i then -i else i))
    | v => do
      let d ← to_numeric v
      return basic_value_real (Float.abs d)

/-- Models `SGN( x )`. -/
def function_SGN : FunctionImpl := fun value =>
  if value.length ≠ 1 then
    Except.error (create_basic_exception ErrorTypes.SYNTAX_ERROR
      "SGN requires 1 parameter".data)
  else do
    let v := value.getD 0 EMPTY_BASIC_VALUE
    let d ← to_numeric v
    let result : Float := if 0 < d then 1 else if 0 > d then -1 else 0
    if value_first v = ValueType.INTEGER then
      return basic_value_integer (double_to_integer_cast result)
    else return basic_value_real result

/-- Models `INT( x )` — truncation via `round(x - 0.5)` and a cast. -/
def function_INT : FunctionImpl := fun value =>
  if value.length ≠ 1 then
    Except.error (create_basic_exception ErrorTypes.SYNTAX_ERROR
      "INT requires 1 parameter".data)
  else
    match value.getD 0 EMPTY_BASIC_VALUE with
    | BasicValue.integer_v i => Except.ok (BasicValue.integer_v i)
    | v => do
      let r ← to_real_value v
      return basic_value_integer (double_to_integer_cast (Float.round (Float.sub r 0.5)))

/-- Models `RND( [s] )` — throws SYNTAX for arity ≤ 1, and "Not implemented"
otherwise. -/
def function_RND : FunctionImpl := fun value =>
  if 1 ≥ value.length then
    Except.error (create_basic_exception ErrorTypes.SYNTAX_ERROR
      "INT requires 1 or 0 parameters".data)
  else
    Except.error (create_basic_exception ErrorTypes.SYNTAX_ERROR
      "Not implemented".data)

/-- Models `NEG( x )` — delegates to the binary `-` with a zero left operand
(the `-` lambda consults no other engine state). -/
def function_NEG : FunctionImpl := fun values =>
  if values.length ≠ 1 then
    Except.error (create_basic_exception ErrorTypes.SYNTAX_ERROR
      "NEG requires 1 parameter".data)
  else
    binary_operator [] "-".data (basic_value_integer 0) (values.getD 0 EMPTY_BASIC_VALUE)

/-- Models `NOT( x )`. -/
def function_NOT : FunctionImpl := fun value =>
  if value.length ≠ 1 then
    Except.error (create_basic_exception ErrorTypes.SYNTAX_ERROR
      "NOT requires 1 parameter".data)
  else do
    let b ← to_boolean (value.getD 0 EMPTY_BASIC_VALUE)
    return basic_value_boolean (!b)

/-- Models `LEN( s )`. -/
def function_LEN : FunctionImpl := fun value =>
  if value.length ≠ 1 then
    Except.error (create_basic_exception ErrorTypes.SYNTAX_ERROR
      "LEN requires 1 parameter".data)
  else
    let v := value.getD 0 EMPTY_BASIC_VALUE
    if value_first v ≠ ValueType.STRING then
      Except.error (create_basic_exception ErrorTypes.SYNTAX_ERROR
        "LEN only works on string data".data)
    else Except.ok (basic_value_integer ((to_string_value v).length))

/-- Models `LEFT$( string, len )`. -/
def function_LEFT_dollar : FunctionImpl := fun value =>
  if value.length ≠ 2 then
    Except.error (create_basic_exception ErrorTypes.SYNTAX_ERROR
      "LEFT$ requires 2 parameters".data)
  else
    let v0 := value.getD 0 EMPTY_BASIC_VALUE
    let v1 := value.getD 1 EMPTY_BASIC_VALUE
    if value_first v0 ≠ ValueType.STRING then
      Except.error (create_basic_exception ErrorTypes.SYNTAX_ERROR
        "The first parameter of LEFT$ must be a string".data)
    else if value_first v1 ≠ ValueType.INTEGER then
      Except.error (create_basic_exception ErrorTypes.SYNTAX_ERROR
        "The second parameter of LEFT$ must be an integer".data)
    else do
      let len ← to_integer_value v1
      if 0 > len then
        Except.error (create_basic_exception ErrorTypes.SYNTAX_ERROR
          "The len parameter of LEFT$ must be positive".data)
      else return basic_value_string ((to_string_value v0).take len.toNat)

/-- Models `RIGHT$( string, len )`: `start = size - len` in `size_t` arithmetic;
a `len` larger than the string wraps to a huge start and `substr` throws
`std::out_of_range` (not a BasicException). -/
def function_RIGHT_dollar : FunctionImpl := fun value =>
  if value.length ≠ 2 then
    Except.error (create_basic_exception ErrorTypes.SYNTAX_ERROR
      "RIGHT$ requires 2 parameters".data)
  else
    let v0 := value.getD 0 EMPTY_BASIC_VALUE
    let v1 := value.getD 1 EMPTY_BASIC_VALUE
    if value_first v0 ≠ ValueType.STRING then
      Except.error (create_basic_exception ErrorTypes.SYNTAX_ERROR
        "The first parameter of RIGHT$ must be a string".data)
    else if value_first v1 ≠ ValueType.INTEGER then
      Except.error (create_basic_exception ErrorTypes.SYNTAX_ERROR
        "The second parameter of RIGHT$ must be an integer".data)
    else do
      let str_value := to_string_value v0
      let start ← to_integer_value v1
      if 0 > start then
        Except.error (create_basic_exception ErrorTypes.SYNTAX_ERROR
          "The len parameter of RIGHT$ must be positive".data)
      else if start > (str_value.length : Int) then
        Except.error (Failure.std_ex "std::out_of_range".data)
      else return basic_value_string (str_value.drop (str_value.length - start.toNat))

/-- Models `MID$( string, start, len )`: start is 1-based and must be `>= 1`;
`len < 1` is rejected with "must be positive"; a start past the end makes
`substr` throw `std::out_of_range`. -/
def function_MID_dollar : FunctionImpl := fun value =>
  if value.length ≠ 3 then
    Except.error (create_basic_exception ErrorTypes.SYNTAX_ERROR
      "MID$ requires 3 parameters".data)
  else
    let v0 := value.getD 0 EMPTY_BASIC_VALUE
    let v1 := value.getD 1 EMPTY_BASIC_VALUE
    let v2 := value.getD 2 EMPTY_BASIC_VALUE
    if value_first v0 ≠ ValueType.STRING then
      Except.error (create_basic_exception ErrorTypes.SYNTAX_ERROR
        "The first parameter of MID$ must be a string".data)
    else if value_first v1 ≠ ValueType.INTEGER ∨ value_first v2 ≠ ValueType.INTEGER then
      Except.error (create_basic_exception ErrorTypes.SYNTAX_ERROR
        "The parameters start and len of MID$ must be an integer".data)
    else do
      let start0 ← to_integer_value v1
      if 1 > start0 then
        Except.error (create_basic_exception ErrorTypes.SYNTAX_ERROR
          "The start parameter of MID$ must be greater than zero".data)
      else
        let start := start0 - 1
        do
        let len ← to_integer_value v2
        if 1 > len then
          Except.error (create_basic_exception ErrorTypes.SYNTAX_ERROR
            "The len parameter of MID$ must be positive".data)
        else
          let s := to_string_value v0
          if start > (s.length : Int) then
            Except.error (Failure.std_ex "std::out_of_range".data)
          else return basic_value_string ((s.drop start.toNat).take len.toNat)

/-- Models `STR$( x )`. -/
def function_STR_dollar : FunctionImpl := fun value =>
  if value.length ≠ 1 then
    Except.error (create_basic_exception ErrorTypes.SYNTAX_ERROR
      "STR$ requires 1 parameter".data)
  else
    let v := value.getD 0 EMPTY_BASIC_VALUE
    if value_first v ≠ ValueType.INTEGER ∧ value_first v ≠ ValueType.REAL then
      Except.error (create_basic_exception ErrorTypes.SYNTAX_ERROR
        "STR$ only works on numeric data".data)
    else Except.ok (basic_value_string (to_string_value v))

/-- Models `VAL( s )`. -/
def function_VAL : FunctionImpl := fun value =>
  if value.length ≠ 1 then
    Except.error (create_basic_exception ErrorTypes.SYNTAX_ERROR
      "VAL requires 1 parameter".data)
  else
    let v := value.getD 0 EMPTY_BASIC_VALUE
    if value_first v ≠ ValueType.STRING then
      Except.error (create_basic_exception ErrorTypes.SYNTAX_ERROR
        "VAL only works on string data".data)
    else
      let str_value := to_string_value v
      match get_value_type_str str_value with
      | ValueType.INTEGER => basic_value_integer_str str_value
      | ValueType.REAL => basic_value_real_str str_value
      | _ => Except.error (create_basic_exception ErrorTypes.SYNTAX_ERROR
          "Attempt to convert a string of non-numbers to a number".data)

/-- Models `ASC( s )` — the code of the first character (a `char` in the source,
so bytes 128–255 would read negative; ASCII is modelled). -/
def function_ASC : FunctionImpl := fun value =>
  if value.length ≠ 1 then
    Except.error (create_basic_exception ErrorTypes.SYNTAX_ERROR
      "ASC requires 1 parameter".data)
  else
    let v := value.getD 0 EMPTY_BASIC_VALUE
    if value_first v ≠ ValueType.STRING then
      Except.error (create_basic_exception ErrorTypes.SYNTAX_ERROR
        "ASC only works on string data".data)
    else
      let n := (char_at (to_string_value v) 0).toNat
      Except.ok (basic_value_integer (if n < 128 then (n : Int) else (n : Int) - 256))

/-- Models `CHR$( x )`. -/
def function_CHR_dollar : FunctionImpl := fun value =>
  if value.length ≠ 1 then
    Except.error (create_basic_exception ErrorTypes.SYNTAX_ERROR
      "CHR$ requires 1 parameter".data)
  else
    let v := value.getD 0 EMPTY_BASIC_VALUE
    if value_first v ≠ ValueType.INTEGER then
      Except.error (create_basic_exception ErrorTypes.SYNTAX_ERROR
        "CHR$ only works on integer data".data)
    else do
      let ascii_code ← to_integer_value v
      if 0 > ascii_code ∨ 255 < ascii_code then
        Except.error (create_basic_exception ErrorTypes.SYNTAX_ERROR
          "Specified ASCII code must be between 0 and 255 inclusive".data)
      else return basic_value_string (char_to_string (Char.ofNat ascii_code.toNat))

/-- The function table after `init()` (names and descriptions as
registered; every entry's callable is populated). -/
def default_functions : List (List Char × FunctionType) :=
  [("COS".data, ⟨"COS( Angle ) -> Returns the cosine of angle in radians".data,
     some (function_numeric1 "COS requires 1 parameter".data Float.cos)⟩),
   ("SIN".data, ⟨"SIN( Angle ) -> Returns the sine of angle in radians".data,
     some (function_numeric1 "SIN requires 1 parameter".data Float.sin)⟩),
   ("TAN".data, ⟨"TAN( Angle ) -> Returns the tangent of angle in radians".data,
     some (function_numeric1 "TAN requires 1 parameter".data Float.tan)⟩),
   ("ATN".data, ⟨"ATN( Angle ) -> Returns the arctangent of angle in radians".data,
     some (function_numeric1 "ATN requires 1 parameter".data Float.atan)⟩),
   ("EXP".data, ⟨"EXP( Exponent ) -> Resturn e raised to the power of exponent. Where e = 2.71828183...".data,
     some (function_numeric1 "EXP requires 1 parameter".data Float.exp)⟩),
   ("LOG".data, ⟨"LOG( x ) -> Returns the natural logarithm of x".data,
     some (function_numeric1 "LOG requires 1 parameter".data Float.log)⟩),
   ("SQR".data, ⟨"SQR( x ) -> Returns the square root of x".data,
     some (function_numeric1 "SQRT requires 1 parameter".data Float.sqrt)⟩),
   ("SQUARE".data, ⟨"SQUARE( x ) -> Returns x squared".data, some function_SQUARE⟩),
   ("ABS".data, ⟨"ABS( x ) -> Returns the absolute value of x".data, some function_ABS⟩),
   ("SGN".data, ⟨"SGN( x ) -> Returns the sign of x ( -1 for negative, 0 for 0, and 1 for positive)".data,
     some function_SGN⟩),
   ("INT".data, ⟨"INT( x ) -> Returns x truncated to the greatest integer less or equal".data,
     some function_INT⟩),
   ("RND".data, ⟨"RND( [s] ) -> Returns a random number between 0.0 and 1.0.  An optional seed can be specified".data,
     some function_RND⟩),
   ("NEG".data, ⟨"NEG( x ) -> Returns the negated number".data, some function_NEG⟩),
   ("POW".data, ⟨"POW( base, exponent ) -> Returns base raised to the power exponent".data,
     some function_POW⟩),
   ("NOT".data, ⟨"Boolean negation".data, some function_NOT⟩),
   ("LEN".data, ⟨"LEN( s ) -> Returns the length of string s".data, some function_LEN⟩),
   ("LEFT$".data, ⟨"LEFT$( string, len ) -> Returns the left side of the string up to len characters long".data,
     some function_LEFT_dollar⟩),
   ("RIGHT$".data, ⟨"RIGHT$( string, len ) -> Returns the right side of the string up to len characters long".data,
     some function_RIGHT_dollar⟩),
   ("MID$".data, ⟨"MID$( string, start, len ) -> Returns the middle of the string from start up to len characters long".data,
     some function_MID_dollar⟩),
   ("STR$".data, ⟨"STR$( x ) -> Converts a number to a string".data, some function_STR_dollar⟩),
   ("VAL".data, ⟨"VAL( s ) -> Converts a string to a number".data, some function_VAL⟩),
   ("ASC".data, ⟨"ASC( s ) -> Returns the ASCII code of the first character of a string".data,
     some function_ASC⟩),
   ("CHR$".data, ⟨"CHR$( x ) -> Returns a string with the character of the specified ASCII code".data,
     some function_CHR_dollar⟩)]

/-- The keyword names registered by `init()`. -/
def default_keywords : List (List Char) :=
  ["NEW".data, "CLR".data, "DELETE".data, "DIM".data, "LET".data, "STOP".data,
   "CONT".data, "GOTO".data, "GOSUB".data, "RETURN".data, "PRINT".data,
   "QUIT".data, "EXIT".data, "END".data, "REM".data, "LIST".data, "RUN".data,
   "VARS".data, "FUNCTIONS".data, "KEYWORDS".data, "THEN".data, "IF".data]

/-- Models `boost::math::constants::pi<double>()`. -/
def pi_double : Float := 3.141592653589793

/-- The constant table after `init()`: TRUE, FALSE, PI. -/
def default_constants : List (List Char × ConstantType) :=
  [("TRUE".data, ⟨[], basic_value_boolean true⟩),
   ("FALSE".data, ⟨[], basic_value_boolean false⟩),
   ("PI".data, ⟨"Trigometric Pi value".data, basic_value_real pi_double⟩)]

/-- The environment of a freshly constructed engine. -/
def default_env : Env :=
  { m_variables := [], m_constants := default_constants, m_arrays := [],
    m_functions := default_functions, m_keywords := default_keywords }

/-! ## The expression evaluator (`Basic::evaluate` and its helpers)

The evaluator, `evaluate_parameters`, `split_arrayfunction_from_string`,
`get_variable` and `get_variable_constant` are mutually recursive; they are
modelled as one structurally fuel-recursive function `basic_step` over a
request type, with one request constructor per source function (plus one
for the token loop inside `evaluate` and one for the parameter-list fold),
so that concrete runs reduce inside the kernel.  Exhausted fuel is reported
as `Failure.ub`; every theorem below supplies enough fuel. -/

/-- Models `pop(vect)` — undefined behaviour on an empty vector. -/
def pop_stack {α : Type} : List α → Except Failure (α × List α)
  | [] => Except.error (Failure.ub "pop on empty std::vector".data)
  | x :: rest => Except.ok (x, rest)

/-- The shared body of the shunting-yard reduction and of the final drain:
pop `rhs` having popped operator `prev_operator`, apply it (unary takes one
operand, binary pops a second), push the result. -/
def apply_stacked_operator (env : Env) (prev_operator : List Char) (rhs : BasicValue)
    (operand_stack : List BasicValue) : Except Failure (List BasicValue) :=
  if is_unary_operator prev_operator then do
    let result ← unary_operator prev_operator rhs
    return result :: operand_stack
  else if is_binary_operator prev_operator then do
    let (lhs, stack1) ← pop_stack operand_stack
    let result ← binary_operator env.m_functions prev_operator lhs rhs
    return result :: stack1
  else
    Except.error (create_basic_exception ErrorTypes.SYNTAX_ERROR
      ("Unknown operator ".data ++ prev_operator))

/-- Models `while( !is_higher_precedence( current_operator ) ) { … }` before a
push: while the operator stack is non-empty and
`rank(current) ≥ rank(top)`, pop the top operator and apply it.  Consulting
a rank can itself fail (FATAL for unknown names), exactly as
`is_higher_precedence` can throw. -/
def reduce_operator_stack (env : Env) (current_operator : List Char) :
    List (List Char) → List BasicValue →
    Except Failure (List (List Char) × List BasicValue)
  | [], operand_stack => Except.ok ([], operand_stack)
  | top :: rest, operand_stack => do
    let rank_new ← operator_rank current_operator
    let rank_top ← operator_rank top
    if rank_new < rank_top then Except.ok (top :: rest, operand_stack)
    else do
      let (rhs, stack1) ← pop_stack operand_stack
      let stack2 ← apply_stacked_operator env top rhs stack1
      reduce_operator_stack env current_operator rest stack2

/-- The `while( !operator_stack.empty( ) )` drain after the source is
consumed. -/
def drain_operator_stack (env : Env) :
    List (List Char) → List BasicValue → Except Failure (List BasicValue)
  | [], operand_stack => Except.ok operand_stack
  | top :: rest, operand_stack => do
    let (rhs, stack1) ← pop_stack operand_stack
    let stack2 ← apply_stacked_operator env top rhs stack1
    drain_operator_stack env rest stack2

/-- The tail of `evaluate`: empty operand stack yields EMPTY; exactly one
operand is the result; more is a SYNTAX error. -/
def finish_evaluate (operand_stack : List BasicValue) : Except Failure BasicValue :=
  match operand_stack with
  | [] => Except.ok EMPTY_BASIC_VALUE
  | v :: rest =>
    match rest with
    | [] => Except.ok v
    | _ => Except.error (create_basic_exception ErrorTypes.SYNTAX_ERROR
        "Unknown error while parsing line.  Not value left at end of evaluation".data)

/-- Models `is_logical_and(value, pos, end)`: an upper-cased 3-character window
equal to `AND`, in range, followed by a space or tab. -/
def is_logical_and (value : List Char) (pos : Nat) (endp : Int) : Bool :=
  if (pos : Int) + 3 ≤ endp then
    to_upper_copy (substr value pos 3) = "AND".data ∧
      (char_at value (pos + 3) = ' ' ∨ char_at value (pos + 3) = '\t')
  else false

/-- Models `is_logical_or(value, pos, end)`. -/
def is_logical_or (value : List Char) (pos : Nat) (endp : Int) : Bool :=
  if (pos : Int) + 2 ≤ endp then
    to_upper_copy (substr value pos 2) = "OR".data ∧
      (char_at value (pos + 2) = ' ' ∨ char_at value (pos + 2) = '\t')
  else false

/-- The comma scan of `evaluate_parameters`: positions of `','` at
quote-depth 0 (quoted sections are skipped via `find_end_of_string`). -/
def comma_scan_go (value : List Char) (pos : Nat) :
    (fuel : Nat) → Except Failure (List Nat)
  | 0 => Except.error (Failure.ub "out of fuel".data)
  | Nat.succ rem =>
    if ¬ pos < value.length then Except.ok []
    else
    let c := char_at value pos
    if c = '"' then do
      let n ← find_end_of_string (substr_from value pos)
      comma_scan_go value (pos + n + 1) rem
    else if c = ',' then do
      let rest ← comma_scan_go value (pos + 1) rem
      return pos :: rest
    else comma_scan_go value (pos + 1) rem

/-- The comma positions of a parameter list; the scan advances by at least
one position per step, so `value.length + 1` fuel always completes it. -/
def comma_scan (value : List Char) : Except Failure (List Nat) :=
  comma_scan_go value 0 (value.length + 1)

/-- Cutting the parameter text at the comma positions (with the
`value.size()` sentinel appended): each segment is
`value.substr(start, current_end - start)` and the next starts one past the
comma. -/
def make_segments (value : List Char) : Nat → List Nat → List (List Char)
  | _, [] => []
  | start, current_end :: rest =>
    substr value start (current_end - start) :: make_segments value (current_end + 1) rest

/-- Models `std::string::find_last_of` for a single character. -/
def find_last_of (value : List Char) (c : Char) : Option Nat :=
  match value.reverse.findIdx? (fun x => x = c) with
  | some i => some (value.length - 1 - i)
  | none => none

/-- Models `convert_dimensions(params)`: `to_integer` each value (`any_cast`, so a
non-INTEGER throws `bad_any_cast`), then the `integer → size_t` conversion,
which sign-extends mod `2^64`. -/
def convert_dimensions : List BasicValue → Except Failure (List Nat)
  | [] => Except.ok []
  | v :: rest => do
    let i ← to_integer_value v
    let tail ← convert_dimensions rest
    return (Int.emod i (2 ^ 64)).toNat :: tail

/-- The out-of-bounds message of the non-`const`
`BasicArray::operator()`: the joined declared maxima, then the requested
indices — whose loop does *not* reset `is_first`, so with a non-empty
dimension vector every requested index is preceded by `", "`. -/
def join_sizes (first : Bool) : List Nat → List Char
  | [] => []
  | d :: rest =>
    (if first then [] else ", ".data) ++ (toString d).data ++ join_sizes false rest

/-- The SYNTAX message raised by an out-of-bounds array access. -/
def array_out_of_bounds_message (arr : BasicArray) (dimensions : List Nat) : List Char :=
  "Array out of bounds.  Max is ( ".data ++ join_sizes true arr.m_dimensions ++
    " ) you requested ( ".data ++ join_sizes arr.m_dimensions.isEmpty dimensions ++ ")".data

/-- The flat-offset loop of `BasicArray::operator()`:
`pos += dimensions[n] * multiplier; multiplier *= m_dimensions[n]` in
`size_t` arithmetic (every step wraps mod `2^64`). -/
def array_offset_go : List Nat → List Nat → Nat → Nat → Nat
  | [], _, pos, _ => pos
  | d :: drest, idx, pos, multiplier =>
    let i := idx.headD 0
    let pos := (pos + i * multiplier % 2 ^ 64) % 2 ^ 64
    let multiplier := multiplier * d % 2 ^ 64
    array_offset_go drest idx.tail pos multiplier

/-- Models `BasicArray::operator()(dimensions)` reduced to the flat offset it
addresses: a dimension-count mismatch and an out-of-range offset (the
`std::out_of_range` of `m_values.at`) are SYNTAX errors. -/
def basic_array_offset (arr : BasicArray) (dimensions : List Nat) : Except Failure Nat :=
  if arr.m_dimensions.length ≠ dimensions.length then
    Except.error (create_basic_exception ErrorTypes.SYNTAX_ERROR
      (("Must supply ".data ++ (toString arr.m_dimensions.length).data) ++
        " indexes to address array".data))
  else
    let pos := array_offset_go arr.m_dimensions dimensions 0 1
    if pos < arr.m_values.length then Except.ok pos
    else Except.error (create_basic_exception ErrorTypes.SYNTAX_ERROR
      (array_out_of_bounds_message arr dimensions))

/-- Reading `BasicArray::operator()(dimensions)`. -/
def basic_array_get (arr : BasicArray) (dimensions : List Nat) :
    Except Failure BasicValue := do
  let pos ← basic_array_offset arr dimensions
  return arr.m_values.getD pos EMPTY_BASIC_VALUE

/-- Models `multiply_list(dimensions)` (also `size_t` arithmetic). -/
def multiply_list : List Nat → Nat
  | [] => 1
  | d :: rest => multiply_list rest * d % 2 ^ 64

/-- The `BasicArray(dimensions)` constructor: flat storage of
`multiply_list(dimensions)` default-constructed (EMPTY) cells. -/
def make_basic_array (dimensions : List Nat) : BasicArray :=
  { m_dimensions := dimensions,
    m_values := List.replicate (multiply_list dimensions) EMPTY_BASIC_VALUE }

/-- Models `Basic::get_array_variable(name, params)` as a read:
`retrieve_value(m_arrays, name)` upper-cases the key (a missing entry would
default-insert an empty array; every modelled caller is guarded by
`is_array`, so the insertion side effect is invisible), then indexes. -/
def get_array_variable_read (env : Env) (name : List Char) (params : List BasicValue) :
    Except Failure BasicValue := do
  let arr := (map_find env.m_arrays (to_upper_copy name)).getD ⟨[], []⟩
  let idx ← convert_dimensions params
  basic_array_get arr idx

/-- The request type of the combined evaluator recursion: one constructor
per source function in the mutual-recursion knot. -/
inductive Req where
  | evaluate_r (value : List Char)
  | evaluate_loop_r (value : List Char) (pos : Nat)
      (operator_stack : List (List Char)) (operand_stack : List BasicValue)
  | operator_token_r (value : List Char) (pos : Nat)
      (operator_stack : List (List Char)) (operand_stack : List BasicValue)
      (current_char : Char)
  | operand_token_r (value : List Char) (pos : Nat)
      (operator_stack : List (List Char)) (operand_stack : List BasicValue)
  | evaluate_parameters_r (value : List Char)
  | eval_list_r (segments : List (List Char))
  | split_arrayfunction_r (name : List Char) (throw_on_missing_bracket : Bool)
  | get_variable_r (name : List Char)
  | get_variable_constant_r (name : List Char)

/-- The result shapes the requests can produce. -/
inductive Res where
  | val (v : BasicValue)
  | vals (vs : List BasicValue)
  | name_vals (name : List Char) (params : List BasicValue)

/-- Coerce a `Res` expected to be a single value. -/
def as_value : Res → Except Failure BasicValue
  | Res.val v => Except.ok v
  | _ => Except.error (Failure.ub "unexpected result shape".data)

/-- Coerce a `Res` expected to be a value list. -/
def as_values : Res → Except Failure (List BasicValue)
  | Res.vals vs => Except.ok vs
  | _ => Except.error (Failure.ub "unexpected result shape".data)

/-- Coerce a `Res` expected to be a (name, parameters) pair. -/
def as_name_values : Res → Except Failure (List Char × List BasicValue)
  | Res.name_vals n vs => Except.ok (n, vs)
  | _ => Except.error (Failure.ub "unexpected result shape".data)

/-- The combined evaluator.  Each branch transcribes the corresponding
source function; see the wrappers below for the source-named entry
points. -/
def basic_step (env : Env) : Nat → Req → Except Failure Res
  | 0, _ => Except.error (Failure.ub "out of fuel".data)
  | Nat.succ f, Req.evaluate_r value =>
    -- Basic::evaluate — start the token loop with empty stacks
    basic_step env f (Req.evaluate_loop_r value 0 [] [])
  | Nat.succ f, Req.evaluate_loop_r value pos operator_stack operand_stack =>
    if (pos : Int) ≤ (value.length : Int) - 1 then
      let c0 := char_at value pos
      let current_char := if c0 = 'a' then 'A' else if c0 = 'o' then 'O' else c0
      if current_char = '"' then do
        -- String boundary
        let current_operand := substr_from value pos
        let end_of_string ← find_end_of_string current_operand
        let current_operand := current_operand.take (end_of_string + 1)
        let current_operand := remove_outer_quotes current_operand
        let current_operand := replace_all current_operand "\\\"".data "\"".data
        basic_step env f (Req.evaluate_loop_r value (pos + end_of_string + 1)
          operator_stack
          (basic_value_string (remove_outer_quotes current_operand) :: operand_stack))
      else if current_char = '(' then do
        -- Bracket boundary: recursively evaluate the inner text
        let text_in_bracket := substr_from value (pos + 1)
        let end_of_bracket ← find_end_of_bracket text_in_bracket
        let inner := text_in_bracket.take end_of_bracket
        let r ← basic_step env f (Req.evaluate_r inner)
        let v ← as_value r
        basic_step env f (Req.evaluate_loop_r value (pos + end_of_bracket + 2)
          operator_stack (v :: operand_stack))
      else if current_char = ' ' ∨ current_char = '\t' then
        -- skip a run of whitespace
        let k := ((value.drop (pos + 1)).takeWhile (fun c => c = ' ' ∨ c = '\t')).length
        basic_step env f (Req.evaluate_loop_r value (pos + k + 1) operator_stack operand_stack)
      else if current_char = 'A' then
        if is_logical_and value pos ((value.length : Int) - 1) then
          basic_step env f (Req.operator_token_r value pos operator_stack operand_stack 'A')
        else basic_step env f (Req.operand_token_r value pos operator_stack operand_stack)
      else if current_char = 'O' then
        if is_logical_or value pos ((value.length : Int) - 1) then
          basic_step env f (Req.operator_token_r value pos operator_stack operand_stack 'O')
        else basic_step env f (Req.operand_token_r value pos operator_stack operand_stack)
      else if current_char ∈ ['%', '^', '*', '/', '+', '-', '<', '>', '='] then
        basic_step env f (Req.operator_token_r value pos operator_stack operand_stack current_char)
      else
        basic_step env f (Req.operand_token_r value pos operator_stack operand_stack)
    else do
      -- source consumed: drain the operator stack, then finish
      let vals ← drain_operator_stack env operator_stack operand_stack
      let v ← finish_evaluate vals
      return Res.val v
  | Nat.succ f, Req.operator_token_r value pos operator_stack operand_stack current_char =>
    -- the explicit_operator block
    let endp : Int := (value.length : Int) - 1
    let current_operator := char_to_string current_char
    -- unary-minus detection
    let current_operator :=
      if current_char = '-' ∧
          ((operator_stack.isEmpty ∧ operand_stack.isEmpty) ∨
            (operator_stack.isEmpty = false ∧ operand_stack.length % 2 = 1)) then
        "NEG".data
      else current_operator
    let adjusted : Except Failure (List Char × Nat) :=
      if current_char = '<' ∨ current_char = '>' then
        if (pos : Int) ≥ endp then
          Except.error (create_basic_exception ErrorTypes.SYNTAX_ERROR
            "Binary operator with only left hand side, not right".data)
        else if char_at value (pos + 1) = '=' then
          Except.ok (current_operator ++ ['='], pos + 1)
        else Except.ok (current_operator, pos)
      else if current_char = 'A' then Except.ok ("AND".data, pos + 2)
      else if current_char = 'O' then Except.ok ("OR".data, pos + 1)
      else Except.ok (current_operator, pos)
    do
    let (current_operator, pos) ← adjusted
    let (ops1, vals1) ← reduce_operator_stack env current_operator operator_stack operand_stack
    basic_step env f (Req.evaluate_loop_r value (pos + 1) (current_operator :: ops1) vals1)
  | Nat.succ f, Req.operand_token_r value pos operator_stack operand_stack => do
    -- the default (operand) block
    let suffix := substr_from value pos
    let end_of_operand ← find_end_of_operand suffix
    let current_operand := suffix.take (end_of_operand + 1).toNat
    let r ← basic_step env f (Req.split_arrayfunction_r current_operand false)
    let (first, params) ← as_name_values r
    let next_pos := pos + (end_of_operand + 1).toNat
    if 0 < params.length then do
      let v ←
        if is_function env first then exec_function env first params
        else if is_array env first then get_array_variable_read env first params
        else Except.error (create_basic_exception ErrorTypes.SYNTAX_ERROR
          (("Unknown symbol name '".data ++ first) ++ "'".data))
      basic_step env f (Req.evaluate_loop_r value next_pos operator_stack (v :: operand_stack))
    else
      if is_variable env first then do
        let r2 ← basic_step env f (Req.get_variable_constant_r first)
        let v ← as_value r2
        basic_step env f (Req.evaluate_loop_r value next_pos operator_stack (v :: operand_stack))
      else
        match get_value_type_str current_operand with
        | ValueType.INTEGER => do
          let v ← basic_value_integer_str current_operand
          basic_step env f (Req.evaluate_loop_r value next_pos operator_stack (v :: operand_stack))
        | ValueType.REAL => do
          let v ← basic_value_real_str current_operand
          basic_step env f (Req.evaluate_loop_r value next_pos operator_stack (v :: operand_stack))
        | _ =>
          Except.error (create_basic_exception ErrorTypes.SYNTAX_ERROR
            (("Unknown symbol '".data ++ current_operand) ++ "'".data))
  | Nat.succ f, Req.evaluate_parameters_r value =>
    let value := remove_outer_bracket value
    if value = [] then Except.ok (Res.vals [])
    else do
      let comma_pos ← comma_scan value
      let segments := make_segments value 0 (comma_pos ++ [value.length])
      basic_step env f (Req.eval_list_r segments)
  | Nat.succ _, Req.eval_list_r [] => Except.ok (Res.vals [])
  | Nat.succ f, Req.eval_list_r (s :: rest) => do
    let r1 ← basic_step env f (Req.evaluate_r s)
    let v ← as_value r1
    let r2 ← basic_step env f (Req.eval_list_r rest)
    let vs ← as_values r2
    return Res.vals (v :: vs)
  | Nat.succ f, Req.split_arrayfunction_r name throw_on_missing_bracket =>
    match name.findIdx? (fun c => c = '(') with
    | none =>
      if !throw_on_missing_bracket then Except.ok (Res.name_vals name [])
      else Except.error (create_basic_exception ErrorTypes.FATAL_ERROR
        "Expected to find start bracket but none found.".data)
    | some bracket_pos =>
      let lb_count := (name.filter (fun c => c = '(')).length
      let rb_count := (name.filter (fun c => c = ')')).length
      if lb_count ≠ rb_count then
        Except.error (create_basic_exception ErrorTypes.SYNTAX_ERROR
          (("Unclosed bracket on function '".data ++ name) ++ "'".data))
      else
        let array_name := name.take bracket_pos
        let bracket_end := (find_last_of name ')').getD 0
        let param_str := substr name (bracket_pos + 1) (bracket_end - bracket_pos - 1)
        do
        let r ← basic_step env f (Req.evaluate_parameters_r param_str)
        let params ← as_values r
        return Res.name_vals array_name params
  | Nat.succ f, Req.get_variable_r name =>
    -- Basic::get_variable as a read
    match name.findIdx? (fun c => c = '(') with
    | some brackets_start => do
      let brackets_end ← find_end_of_bracket (substr_from name brackets_start)
      let array_name := name.take brackets_start
      let params_str := substr name (brackets_start + 1) (brackets_end - 1)
      let r ← basic_step env f (Req.evaluate_parameters_r params_str)
      let params ← as_values r
      let v ← get_array_variable_read env array_name params
      return Res.val v
    | none =>
      -- `retrieve_value(m_variables, name)`: upper-case the key; a missing
      -- key default-inserts EMPTY and the read returns EMPTY either way
      Except.ok (Res.val ((map_find env.m_variables (to_upper_copy name)).getD EMPTY_BASIC_VALUE))
  | Nat.succ f, Req.get_variable_constant_r name =>
    let name := to_upper_copy name
    if is_constant env name then
      Except.ok (Res.val
        (((map_find env.m_constants (to_upper_copy name)).getD ⟨[], EMPTY_BASIC_VALUE⟩).value))
    else if is_variable env name then
      basic_step env f (Req.get_variable_r name)
    else
      Except.error (create_basic_exception ErrorTypes.FATAL_ERROR
        "Undefined variable or constant".data)

/-- Models `Basic::evaluate(value)` (fuelled entry point). -/
def evaluate (env : Env) (fuel : Nat) (value : List Char) : Except Failure BasicValue := do
  let r ← basic_step env fuel (Req.evaluate_r value)
  as_value r

/-- Models `Basic::evaluate_parameters(value)` (fuelled entry point). -/
def evaluate_parameters (env : Env) (fuel : Nat) (value : List Char) :
    Except Failure (List BasicValue) := do
  let r ← basic_step env fuel (Req.evaluate_parameters_r value)
  as_values r

/-- Models `Basic::get_variable_constant(name)` as a read (fuelled entry point). -/
def get_variable_constant (env : Env) (fuel : Nat) (name : List Char) :
    Except Failure BasicValue := do
  let r ← basic_step env fuel (Req.get_variable_constant_r name)
  as_value r

/-! ## Symbol-table mutations (`add_variable`, `add_constant`,
`add_array_variable`, `remove_variable`, `let_helper`) -/

/-- Models `map.erase(key)` for the association-list model. -/
def map_erase {α : Type} (kv_map : List (List Char × α)) (key : List Char) :
    List (List Char × α) :=
  match kv_map with
  | [] => []
  | (k, v) :: rest => if k = key then rest else (k, v) :: map_erase rest key

/-- Models `Basic::remove_variable(name, throw_on_nonexist)`: the lookup
upper-cases the key; a missing key with `throw_on_nonexist` is SYNTAX, and
without it the source erases the `end()` iterator (undefined behaviour). -/
def remove_variable (env : Env) (name : List Char) (throw_on_nonexist : Bool) :
    Except Failure Env :=
  let key := to_upper_copy name
  match map_find env.m_variables key with
  | none =>
    if throw_on_nonexist then
      Except.error (create_basic_exception ErrorTypes.SYNTAX_ERROR
        "Attempt to delete unknown variable".data)
    else Except.error (Failure.ub "erase of an end iterator".data)
  | some _ => Except.ok { env with m_variables := map_erase env.m_variables key }

/-- Models `Basic::add_variable(name, value)`: collision checks probe the
upper-cased name, but the stored key is the caller's name **verbatim**
(`m_variables[std::move(name)] = value`). -/
def add_variable (env : Env) (name : List Char) (value : BasicValue) :
    Except Failure Env :=
  if is_constant env name then
    Except.error (create_basic_exception ErrorTypes.SYNTAX_ERROR
      "Cannot create a variable that is a system constant".data)
  else if is_function env name || is_keyword env name then
    Except.error (create_basic_exception ErrorTypes.SYNTAX_ERROR
      "Cannot create a variable with the same name as a system function/keyword".data)
  else Except.ok { env with m_variables := map_set env.m_variables name value }

/-- Models `Basic::add_array_variable(name, dimensions)` — the same collision
checks, again storing the verbatim key. -/
def add_array_variable (env : Env) (name : List Char) (dimensions : List BasicValue) :
    Except Failure Env :=
  if is_constant env name then
    Except.error (create_basic_exception ErrorTypes.SYNTAX_ERROR
      "Cannot create a variable that is a system constant".data)
  else if is_function env name || is_keyword env name then
    Except.error (create_basic_exception ErrorTypes.SYNTAX_ERROR
      "Cannot create a variable with the same name as a system function/keyword".data)
  else do
    let dims ← convert_dimensions dimensions
    return { env with m_arrays := map_set env.m_arrays name (make_basic_array dims) }

/-- Models `Basic::add_constant(name, description, value)`: rejects
function/keyword collisions, removes a shadowed variable, stores the
verbatim key. -/
def add_constant (env : Env) (name : List Char) (description : List Char)
    (value : BasicValue) : Except Failure Env :=
  if is_function env name || is_keyword env name then
    Except.error (create_basic_exception ErrorTypes.SYNTAX_ERROR
      "Cannot create a constant with the same name as a system function/keyword".data)
  else do
    let env ←
      if key_exists env.m_variables name then remove_variable env name true
      else Except.ok env
    return { env with m_constants := map_set env.m_constants name ⟨description, value⟩ }

/-- Models `Basic::let_helper(parse_string, show_error)`: split on the first `=`;
reject built-in names; then `auto &var = get_variable(lhs)` — which creates
the (upper-case-keyed) variable or locates the array cell *before* the
right-hand side is evaluated — and finally assign the evaluated value
through the reference. -/
def let_helper (env : Env) (fuel : Nat) (parse_string : List Char) (show_error : Bool) :
    Except Failure (Env × Bool) :=
  let parsed := split_in_two_on_char parse_string '='
  match parsed with
  | [name, str_value] =>
    if is_function env name || is_keyword env name || is_constant env name then
      if show_error then
        Except.error (create_basic_exception ErrorTypes.SYNTAX_ERROR
          "Attempt to set variable with name of built-in symbol".data)
      else Except.ok (env, false)
    else
      match name.findIdx? (fun c => c = '(') with
      | some brackets_start => do
        -- array-cell lvalue: locate the cell (possibly default-inserting an
        -- empty array, as `retrieve_value(m_arrays, …)` does), then
        -- evaluate the right-hand side, then store
        let brackets_end ← find_end_of_bracket (substr_from name brackets_start)
        let array_name := name.take brackets_start
        let params_str := substr name (brackets_start + 1) (brackets_end - 1)
        let params ← evaluate_parameters env fuel params_str
        let key := to_upper_copy array_name
        let arr := (map_find env.m_arrays key).getD ⟨[], []⟩
        let env1 :=
          match map_find env.m_arrays key with
          | some _ => env
          | none => { env with m_arrays := map_set env.m_arrays key ⟨[], []⟩ }
        let idx ← convert_dimensions params
        let offset ← basic_array_offset arr idx
        let v ← evaluate env1 fuel str_value
        let arr1 : BasicArray := { arr with m_values := arr.m_values.set offset v }
        return ({ env1 with m_arrays := map_set env1.m_arrays key arr1 }, true)
      | none => do
        -- scalar lvalue: `retrieve_value(m_variables, name)` upper-cases the
        -- key and default-inserts EMPTY when absent
        let key := to_upper_copy name
        let env1 :=
          if (map_find env.m_variables key).isSome then env
          else { env with m_variables := map_set env.m_variables key EMPTY_BASIC_VALUE }
        let v ← evaluate env1 fuel str_value
        return ({ env1 with m_variables := map_set env1.m_variables key v }, true)
  | _ =>
    if show_error then
      Except.error (create_basic_exception ErrorTypes.SYNTAX_ERROR
        "LET requires a variable and an assignment".data)
    else Except.ok (env, false)

/-! ## Program store, cursor and the GOTO/GOSUB/RETURN keywords -/

/-- Models `enum class RunMode { IMMEDIATE, DEFERRED }`. -/
inductive RunMode where
  | IMMEDIATE
  | DEFERRED
deriving DecidableEq, Repr

/-- Models `ProgramLine = std::pair<integer, std::string>`. -/
def ProgramLine : Type := Int × List Char

/-- The execution-driver state: the program store, the cursor
(`m_program_it`, modelled as an index; `m_program.length` is `end()`), the
GOSUB return stack (`m_program_stack`, stored cursors), and the run mode. -/
structure ExecState where
  m_program : List ProgramLine
  m_program_it : Nat
  m_program_stack : List Nat
  m_run_mode : RunMode

/-- One step of the insertion used to model `std::sort` on the program
(ascending by line number; line numbers are unique because `add_line`
replaces an existing line, so the unstable `std::sort` and this stable sort
agree). -/
def insert_program_line (x : ProgramLine) : List ProgramLine → List ProgramLine
  | [] => [x]
  | y :: rest => if x.1 < y.1 then x :: y :: rest else y :: insert_program_line x rest

/-- Models `Basic::sort_program_code`. -/
def sort_program_code (program : List ProgramLine) : List ProgramLine :=
  program.foldl (fun acc x => insert_program_line x acc) []

/-- Models `Basic::find_line(line_number)`: the first position holding that line
number, or `end()` (= `length`). -/
def find_line (program : List ProgramLine) (line_number : Int) : Nat :=
  (program.findIdx? (fun current_line => current_line.1 = line_number)).getD program.length

/-- Models `Basic::set_program_it(line_number, offset)`: sort, then position the
cursor at `find_line(line_number) + offset`; landing exactly on `end()` is
the SYNTAX "invalid line" error, and any other out-of-range iterator is
undefined behaviour. -/
def set_program_it (st : ExecState) (line_number : Int) (offset : Int) :
    Except Failure ExecState :=
  let program := sort_program_code st.m_program
  let st := { st with m_program := program }
  let j : Int := (find_line program line_number : Int) + offset
  if j = (program.length : Int) then
    Except.error (create_basic_exception ErrorTypes.SYNTAX_ERROR
      "Attempt to jump to an invalid line".data)
  else if 0 ≤ j ∧ j < (program.length : Int) then
    Except.ok { st with m_program_it := j.toNat }
  else Except.error (Failure.ub "iterator arithmetic out of range".data)

/-- The `GOTO` keyword handler: DEFERRED only; the argument must classify
INTEGER; jump to `find_line(n) - 1` so the driver's increment lands on
`n`. -/
def keyword_GOTO (st : ExecState) (parse_string : List Char) :
    Except Failure (ExecState × Bool) :=
  if st.m_run_mode = RunMode.IMMEDIATE then
    Except.error (create_basic_exception ErrorTypes.SYNTAX_ERROR
      "Attempt to GOTO from outside a program".data)
  else if get_value_type_str parse_string ≠ ValueType.INTEGER then
    Except.error (create_basic_exception ErrorTypes.SYNTAX_ERROR
      "Can only GOTO line numbers".data)
  else do
    let n ← to_integer_str parse_string
    let st1 ← set_program_it st n (-1)
    return (st1, true)

/-- The `GOSUB` keyword handler: DEFERRED only; push the current cursor on
the return stack, then `GOTO`.  (In the source the push happens before the
`GOTO` call, so a failing `GOTO` leaves the pushed entry behind; the
`Except` model carries no state on the error path, and the claims below
only concern the success path and the pre-mutation errors.) -/
def keyword_GOSUB (st : ExecState) (parse_string : List Char) :
    Except Failure (ExecState × Bool) :=
  if st.m_run_mode = RunMode.IMMEDIATE then
    Except.error (create_basic_exception ErrorTypes.SYNTAX_ERROR
      "Attempt to GOSUB from outside a program".data)
  else
    keyword_GOTO
      { st with m_program_stack := st.m_program_it :: st.m_program_stack }
      parse_string

/-- The `RETURN` keyword handler: DEFERRED only; an empty return stack is a
SYNTAX error raised before anything is mutated; otherwise pop one stored
cursor, read its line number, and reposition there. -/
def keyword_RETURN (st : ExecState) (_parse_string : List Char) :
    Except Failure (ExecState × Bool) :=
  if st.m_run_mode = RunMode.IMMEDIATE then
    Except.error (create_basic_exception ErrorTypes.SYNTAX_ERROR
      "Attempt to RETURN from outside a program".data)
  else
    match st.m_program_stack with
    | [] =>
      Except.error (create_basic_exception ErrorTypes.SYNTAX_ERROR
        "Attempt to RETURN without a preceding GOSUB".data)
    | it :: rest =>
      if ¬ it < st.m_program.length then
        Except.error (Failure.ub "dereferencing an invalid iterator".data)
      else do
        let line := (st.m_program.getD it ((-1 : Int), ([] : List Char))).1
        let st1 ← set_program_it { st with m_program_stack := rest } line 0
        return (st1, true)

/-! ## The dispatch-level catch handlers of `Basic::parse_line` -/

/-- The `try`/`catch` tail of `Basic::parse_line`, as a function of the
current `m_has_syntax_error` flag and of the outcome of the guarded
processing: a normal outcome passes through; a caught SYNTAX
`BasicException` sets the flag and returns `true`; a caught FATAL one
returns `false`; any other escaped `std::exception` is the "UNKNOWN ERROR"
path returning `false`.  (The result pair is the new flag and the return
value.) -/
def parse_line_catch (m_has_syntax_error : Bool) (outcome : Except Failure Bool) :
    Bool × Bool :=
  match outcome with
  | Except.ok b => (m_has_syntax_error, b)
  | Except.error (Failure.ex e) =>
    match e.error_type with
    | ErrorTypes.SYNTAX_ERROR => (true, true)
    | ErrorTypes.FATAL_ERROR => (m_has_syntax_error, false)
  | Except.error (Failure.std_ex _) => (m_has_syntax_error, false)
  | Except.error (Failure.ub _) => (m_has_syntax_error, false)

/-! ## The IF keyword -/

/-- One iteration of the candidate loop inside the `is_then_goto` lambda of
the IF handler.  The guard is the source's
`pos + int32(string_to_find.size()) < parse_string[pos]` — a comparison
against the *character code* at `pos` (not against the string length), kept
verbatim.  When the guard holds the loop body `return`s whether the window
matches this candidate; otherwise the loop falls through. -/
def is_then_goto_check (parse_string : List Char) (pos : Nat) (string_to_find : List Char) :
    Option Bool :=
  if (pos : Int) + (string_to_find.length : Int) < ((char_at parse_string pos).toNat : Int) then
    some (to_upper_copy (substr parse_string pos string_to_find.length) = string_to_find)
  else none

/-- The `is_then_goto` lambda: try "THEN" then "GOTO"; the first candidate
whose guard holds returns immediately, and the guard does not depend on
the candidate (both have length 4) — so whenever the guard holds the
result is "does the window equal THEN", and GOTO is never reached. -/
def is_then_goto (parse_string : List Char) (pos : Nat) : Bool :=
  match is_then_goto_check parse_string pos "THEN".data with
  | some b => b
  | none =>
    match is_then_goto_check parse_string pos "GOTO".data with
    | some b => b
    | none => false

/-- The condition-end scan of the IF handler: over the argument, skip
quoted strings and bracketed groups, and stop at the first position where
`is_then_goto` holds; `none` when the scan falls off the end. -/
def if_scan_go (parse_string : List Char) (pos : Nat) :
    (fuel : Nat) → Except Failure (Option Nat)
  | 0 => Except.error (Failure.ub "out of fuel".data)
  | Nat.succ f =>
    if ¬ pos < parse_string.length then Except.ok none
    else
      let current_char := char_at parse_string pos
      if current_char = '"' then do
        let n ← find_end_of_string (substr_from parse_string pos)
        if_scan_go parse_string (pos + n + 1) f
      else if current_char = '(' then do
        let n ← find_end_of_bracket (substr_from parse_string pos)
        if_scan_go parse_string (pos + n + 1) f
      else if is_then_goto parse_string pos then Except.ok (some pos)
      else if_scan_go parse_string (pos + 1) f

/-- Models `if_scan_go` from position 0 with always-sufficient fuel. -/
def if_scan (parse_string : List Char) : Except Failure (Option Nat) :=
  if_scan_go parse_string 0 (parse_string.length + 1)

/-- The `IF` keyword handler.  `dispatch` abstracts the recursive
`parse_line` call the handler closure makes on the rewritten suffix. -/
def keyword_IF (env : Env) (fuel : Nat) (dispatch : List Char → Except Failure Bool)
    (parse_string : List Char) : Except Failure Bool := do
  let found ← if_scan parse_string
  match found with
  | none =>
    Except.error (create_basic_exception ErrorTypes.SYNTAX_ERROR
      "Unable to find end of condition in IF keyword".data)
  | some start_of_thengoto_clause => do
    let condition := parse_string.take start_of_thengoto_clause
    let cv ← evaluate env fuel condition
    let b ← to_boolean cv
    if b then
      let str_action := substr_from parse_string (start_of_thengoto_clause + 4)
      let str_action :=
        if get_value_type_str str_action = ValueType.INTEGER then
          "GOTO ".data ++ str_action
        else str_action
      dispatch str_action
    else return true

/-! # Theorems settling the claims -/

/-- C2: `determine_result_type` realises exactly the spec's coercion table:
INT·INT = INT; INT/REAL with REAL = REAL; INT/REAL/STR with STR = STR;
BOOL·BOOL = BOOL; every pairing involving EMPTY, and every BOOL pairing
with a non-BOOL type, is EMPTY — all 25 table entries. -/
theorem determine_result_type_matches_spec_table :
    determine_result_type ValueType.INTEGER ValueType.INTEGER = ValueType.INTEGER ∧
    determine_result_type ValueType.INTEGER ValueType.REAL = ValueType.REAL ∧
    determine_result_type ValueType.INTEGER ValueType.STRING = ValueType.STRING ∧
    determine_result_type ValueType.INTEGER ValueType.BOOLEAN = ValueType.EMPTY ∧
    determine_result_type ValueType.INTEGER ValueType.EMPTY = ValueType.EMPTY ∧
    determine_result_type ValueType.REAL ValueType.INTEGER = ValueType.REAL ∧
    determine_result_type ValueType.REAL ValueType.REAL = ValueType.REAL ∧
    determine_result_type ValueType.REAL ValueType.STRING = ValueType.STRING ∧
    determine_result_type ValueType.REAL ValueType.BOOLEAN = ValueType.EMPTY ∧
    determine_result_type ValueType.REAL ValueType.EMPTY = ValueType.EMPTY ∧
    determine_result_type ValueType.STRING ValueType.INTEGER = ValueType.STRING ∧
    determine_result_type ValueType.STRING ValueType.REAL = ValueType.STRING ∧
    determine_result_type ValueType.STRING ValueType.STRING = ValueType.STRING ∧
    determine_result_type ValueType.STRING ValueType.BOOLEAN = ValueType.EMPTY ∧
    determine_result_type ValueType.STRING ValueType.EMPTY = ValueType.EMPTY ∧
    determine_result_type ValueType.BOOLEAN ValueType.INTEGER = ValueType.EMPTY ∧
    determine_result_type ValueType.BOOLEAN ValueType.REAL = ValueType.EMPTY ∧
    determine_result_type ValueType.BOOLEAN ValueType.STRING = ValueType.EMPTY ∧
    determine_result_type ValueType.BOOLEAN ValueType.BOOLEAN = ValueType.BOOLEAN ∧
    determine_result_type ValueType.BOOLEAN ValueType.EMPTY = ValueType.EMPTY ∧
    determine_result_type ValueType.EMPTY ValueType.INTEGER = ValueType.EMPTY ∧
    determine_result_type ValueType.EMPTY ValueType.REAL = ValueType.EMPTY ∧
    determine_result_type ValueType.EMPTY ValueType.STRING = ValueType.EMPTY ∧
    determine_result_type ValueType.EMPTY ValueType.BOOLEAN = ValueType.EMPTY ∧
    determine_result_type ValueType.EMPTY ValueType.EMPTY = ValueType.EMPTY := by
  decide

/-- C3: on two Empty operands `=` yields Boolean true, `<` Boolean false
and `<=` Boolean true, while comparing an Empty operand (on either side)
with a value of any other type raises a SYNTAX error for each of the three
operators. -/
theorem empty_comparison_semantics :
    (∀ funcs : List (List Char × FunctionType),
      binary_operator funcs "=".data BasicValue.empty_v BasicValue.empty_v =
        Except.ok (basic_value_boolean true) ∧
      binary_operator funcs "<".data BasicValue.empty_v BasicValue.empty_v =
        Except.ok (basic_value_boolean false) ∧
      binary_operator funcs "<=".data BasicValue.empty_v BasicValue.empty_v =
        Except.ok (basic_value_boolean true)) ∧
    (∀ (funcs : List (List Char × FunctionType)) (v : BasicValue),
      value_first v ≠ ValueType.EMPTY →
      binary_operator funcs "=".data BasicValue.empty_v v =
        Except.error (create_basic_exception ErrorTypes.SYNTAX_ERROR
          (("Attempt to compare different types Empty and ".data) ++
            value_type_to_string (value_first v))) ∧
      binary_operator funcs "=".data v BasicValue.empty_v =
        Except.error (create_basic_exception ErrorTypes.SYNTAX_ERROR
          (("Attempt to compare different types ".data ++ value_type_to_string (value_first v)) ++
            " and Empty".data)) ∧
      binary_operator funcs "<".data BasicValue.empty_v v =
        Except.error (create_basic_exception ErrorTypes.SYNTAX_ERROR
          (("Attempt to compare different types Empty and ".data) ++
            value_type_to_string (value_first v))) ∧
      binary_operator funcs "<".data v BasicValue.empty_v =
        Except.error (create_basic_exception ErrorTypes.SYNTAX_ERROR
          (("Attempt to compare different types ".data ++ value_type_to_string (value_first v)) ++
            " and Empty".data)) ∧
      binary_operator funcs "<=".data BasicValue.empty_v v =
        Except.error (create_basic_exception ErrorTypes.SYNTAX_ERROR
          (("Attempt to compare different types Empty and ".data) ++
            value_type_to_string (value_first v))) ∧
      binary_operator funcs "<=".data v BasicValue.empty_v =
        Except.error (create_basic_exception ErrorTypes.SYNTAX_ERROR
          (("Attempt to compare different types ".data ++ value_type_to_string (value_first v)) ++
            " and Empty".data))) := by
  refine ⟨fun funcs => ⟨rfl, rfl, rfl⟩, fun funcs v hv => ?_⟩
  cases v with
  | empty_v => exact absurd rfl hv
  | string_v s => exact ⟨rfl, rfl, rfl, rfl, rfl, rfl⟩
  | integer_v i => exact ⟨rfl, rfl, rfl, rfl, rfl, rfl⟩
  | real_v r => exact ⟨rfl, rfl, rfl, rfl, rfl, rfl⟩
  | boolean_v b => exact ⟨rfl, rfl, rfl, rfl, rfl, rfl⟩

/-- Witness for C3 at a concrete non-Empty operand (Integer 1). -/
theorem empty_comparison_semantics_witness :
    binary_operator [] "=".data BasicValue.empty_v (BasicValue.integer_v 1) =
      Except.error (create_basic_exception ErrorTypes.SYNTAX_ERROR
        "Attempt to compare different types Empty and Integer".data) :=
  ((empty_comparison_semantics.2 [] (BasicValue.integer_v 1) (by simp [value_first])).1).trans
    (by rfl)

/-- C6: the catch handlers of `parse_line`: a SYNTAX `BasicException`
raised by the guarded processing sets `m_has_syntax_error` and makes
`parse_line` return true (the REPL continues); a FATAL one leaves the flag
and returns false (the REPL terminates). -/
theorem parse_line_error_dispatch :
    ∀ (flag : Bool) (msg : List Char),
      parse_line_catch flag (Except.error (Failure.ex ⟨msg, ErrorTypes.SYNTAX_ERROR⟩)) =
        (true, true) ∧
      parse_line_catch flag (Except.error (Failure.ex ⟨msg, ErrorTypes.FATAL_ERROR⟩)) =
        (flag, false) := by
  intro flag msg
  exact ⟨rfl, rfl⟩

/-- Strict lexicographic order on byte strings (the spec-side notion of
"lexicographically less", by character code then by length), used to state
what the relational operators compute on Strings. -/
def lex_lt : List Char → List Char → Bool
  | [], [] => false
  | [], _ :: _ => true
  | _ :: _, [] => false
  | a :: as, b :: bs =>
    if a.toNat < b.toNat then true
    else if b.toNat < a.toNat then false
    else lex_lt as bs

theorem char_toNat_inj {a b : Char} (h : a.toNat = b.toNat) : a = b := by
  have h2 := congrArg Char.ofNat h
  simpa using h2

theorem string_compare_neg_iff (a b : List Char) :
    string_compare a b < 0 ↔ lex_lt a b = true := by
  induction a generalizing b with
  | nil => cases b <;> simp [string_compare, lex_lt]
  | cons x xs ih =>
    cases b with
    | nil => simp [string_compare, lex_lt]
    | cons y ys =>
      by_cases h1 : x.toNat < y.toNat
      · simp [string_compare, lex_lt, h1]
      · by_cases h2 : y.toNat < x.toNat
        · simp [string_compare, lex_lt, h1, h2]
        · simp [string_compare, lex_lt, h1, h2, ih ys]

theorem string_compare_pos_iff (a b : List Char) :
    0 < string_compare a b ↔ lex_lt b a = true := by
  induction a generalizing b with
  | nil => cases b <;> simp [string_compare, lex_lt]
  | cons x xs ih =>
    cases b with
    | nil => simp [string_compare, lex_lt]
    | cons y ys =>
      by_cases h1 : x.toNat < y.toNat
      · have h2 : ¬ y.toNat < x.toNat := by omega
        simp [string_compare, lex_lt, h1, h2]
      · by_cases h2 : y.toNat < x.toNat
        · simp [string_compare, lex_lt, h1, h2]
        · simp [string_compare, lex_lt, h1, h2, ih ys]

theorem string_compare_eq_zero_iff (a b : List Char) :
    string_compare a b = 0 ↔ a = b := by
  induction a generalizing b with
  | nil => cases b <;> simp [string_compare]
  | cons x xs ih =>
    cases b with
    | nil => simp [string_compare]
    | cons y ys =>
      by_cases h1 : x.toNat < y.toNat
      · simp only [string_compare, if_pos h1]
        constructor
        · intro h; exact absurd h (by norm_num)
        · intro h
          cases h
          omega
      · by_cases h2 : y.toNat < x.toNat
        · simp only [string_compare, if_neg h1, if_pos h2]
          constructor
          · intro h; exact absurd h (by norm_num)
          · intro h
            cases h
            omega
        · have hxy : x = y := char_toNat_inj (by omega)
          subst hxy
          simp [string_compare, h1, h2, ih ys]

/-- C10: on two String operands the relational operators compute the order
*opposite* to their symbols: `<` returns true exactly when the left string
is lexicographically greater than the right (it tests
`0 < lhs.compare(rhs)`), `>` exactly when it is smaller, `<=` exactly when
`lhs ≥ rhs`, `>=` exactly when `lhs ≤ rhs`; `=` is ordinary string
equality. -/
theorem string_relational_operators_reversed :
    ∀ (funcs : List (List Char × FunctionType)) (a b : List Char),
      binary_operator funcs "<".data (BasicValue.string_v a) (BasicValue.string_v b) =
        Except.ok (basic_value_boolean (lex_lt b a)) ∧
      binary_operator funcs ">".data (BasicValue.string_v a) (BasicValue.string_v b) =
        Except.ok (basic_value_boolean (lex_lt a b)) ∧
      binary_operator funcs "<=".data (BasicValue.string_v a) (BasicValue.string_v b) =
        Except.ok (basic_value_boolean (!lex_lt a b)) ∧
      binary_operator funcs ">=".data (BasicValue.string_v a) (BasicValue.string_v b) =
        Except.ok (basic_value_boolean (!lex_lt b a)) ∧
      binary_operator funcs "=".data (BasicValue.string_v a) (BasicValue.string_v b) =
        Except.ok (basic_value_boolean (decide (a = b))) := by
  intro funcs a b
  refine ⟨?_, ?_, ?_, ?_, ?_⟩
  · show Except.ok (basic_value_boolean (decide (0 < string_compare a b))) = _
    congr 2
    rw [Bool.eq_iff_iff, decide_eq_true_iff, string_compare_pos_iff]
  · show Except.ok (basic_value_boolean (decide (string_compare a b < 0))) = _
    congr 2
    rw [Bool.eq_iff_iff, decide_eq_true_iff, string_compare_neg_iff]
  · show Except.ok (basic_value_boolean (decide (0 ≤ string_compare a b))) = _
    congr 2
    rw [Bool.eq_iff_iff, decide_eq_true_iff, Bool.not_eq_true']
    rw [← Bool.not_eq_true (lex_lt a b), ← string_compare_neg_iff]
    omega
  · show Except.ok (basic_value_boolean (decide (string_compare a b ≤ 0))) = _
    congr 2
    rw [Bool.eq_iff_iff, decide_eq_true_iff, Bool.not_eq_true']
    rw [← Bool.not_eq_true (lex_lt b a), ← string_compare_pos_iff]
    omega
  · show Except.ok (basic_value_boolean (decide (string_compare a b = 0))) = _
    congr 2
    rw [Bool.eq_iff_iff, decide_eq_true_iff, decide_eq_true_iff, string_compare_eq_zero_iff]

/-- C1: the evaluator is a shunting-yard with the spec's ranks: `*` and `/`
rank 3, `+`, `-`, `%` rank 4 (smaller binds tighter); before a new operator
is pushed, `reduce_operator_stack` pops and applies stacked operators
exactly while the stack is non-empty and `rank(new) ≥ rank(top)`;
consequently `evaluate("1+2*3")` is Integer 7 and `evaluate("(1+2)*3")` is
Integer 9. -/
theorem evaluate_shunting_yard :
    (operator_rank "*".data = Except.ok 3 ∧ operator_rank "/".data = Except.ok 3 ∧
     operator_rank "+".data = Except.ok 4 ∧ operator_rank "-".data = Except.ok 4 ∧
     operator_rank "%".data = Except.ok 4) ∧
    (∀ (env : Env) (new_op : List Char) (operand_stack : List BasicValue),
      reduce_operator_stack env new_op [] operand_stack =
        Except.ok ([], operand_stack)) ∧
    (∀ (env : Env) (new_op top : List Char) (rest : List (List Char))
        (operand_stack : List BasicValue) (rank_new rank_top : Int),
      operator_rank new_op = Except.ok rank_new →
      operator_rank top = Except.ok rank_top →
      rank_new < rank_top →
      reduce_operator_stack env new_op (top :: rest) operand_stack =
        Except.ok (top :: rest, operand_stack)) ∧
    (∀ (env : Env) (new_op top : List Char) (rest : List (List Char))
        (operand_stack : List BasicValue) (rank_new rank_top : Int),
      operator_rank new_op = Except.ok rank_new →
      operator_rank top = Except.ok rank_top →
      rank_top ≤ rank_new →
      reduce_operator_stack env new_op (top :: rest) operand_stack =
        (do
          let (rhs, stack1) ← pop_stack operand_stack
          let stack2 ← apply_stacked_operator env top rhs stack1
          reduce_operator_stack env new_op rest stack2)) ∧
    evaluate default_env 1000 "1+2*3".data = Except.ok (BasicValue.integer_v 7) ∧
    evaluate default_env 1000 "(1+2)*3".data = Except.ok (BasicValue.integer_v 9) := by
  refine ⟨⟨rfl, rfl, rfl, rfl, rfl⟩, fun env new_op s => rfl, ?_, ?_, rfl, rfl⟩
  · intro env new_op top rest operand_stack rank_new rank_top h_new h_top h_lt
    simp only [reduce_operator_stack, h_new, h_top, bind, Except.bind]
    rw [if_pos h_lt]
  · intro env new_op top rest operand_stack rank_new rank_top h_new h_top h_le
    simp only [reduce_operator_stack, h_new, h_top, bind, Except.bind]
    rw [if_neg (by omega)]

/-- Witness for C1: the reduce rule instantiated at concrete operators —
pushing `*` over a stacked `+` (3 < 4) leaves the stack alone, and pushing
`+` over a stacked `*` (3 ≤ 4) pops and applies the `*` first. -/
theorem evaluate_shunting_yard_witness :
    reduce_operator_stack default_env "*".data ["+".data] [] =
      Except.ok (["+".data], []) ∧
    reduce_operator_stack default_env "+".data ["*".data]
        [BasicValue.integer_v 3, BasicValue.integer_v 2] =
      Except.ok ([], [BasicValue.integer_v 6]) := by
  constructor
  · exact evaluate_shunting_yard.2.2.1 default_env "*".data "+".data [] [] 3 4 rfl rfl
      (by norm_num)
  · have h := evaluate_shunting_yard.2.2.2.1 default_env "+".data "*".data []
      [BasicValue.integer_v 3, BasicValue.integer_v 2] 4 3 rfl rfl (by norm_num)
    rw [h]
    rfl

/-- The claim's flat-offset formula `Σ idx[i] · Π_{j<i} dim[j]`, in Horner
form over the dimension list (true natural-number arithmetic, no wrap). -/
def flat_offset_spec : List Nat → List Nat → Nat
  | [], _ => 0
  | d :: drest, idx => idx.headD 0 + d * flat_offset_spec drest idx.tail

theorem array_offset_go_spec (dims : List Nat) :
    ∀ (idx : List Nat) (pos mult : Nat), pos < 2 ^ 64 →
      array_offset_go dims idx pos mult =
        (pos + mult * flat_offset_spec dims idx) % 2 ^ 64 := by
  induction dims with
  | nil =>
    intro idx pos mult hp
    simp only [array_offset_go, flat_offset_spec, Nat.mul_zero, Nat.add_zero]
    exact (Nat.mod_eq_of_lt hp).symm
  | cons d drest ih =>
    intro idx pos mult hp
    have hW : 0 < 2 ^ 64 := by norm_num
    simp only [array_offset_go, flat_offset_spec]
    rw [ih idx.tail _ _ (Nat.mod_lt _ hW)]
    have h1 : (pos + idx.headD 0 * mult % 2 ^ 64) % 2 ^ 64 ≡
        pos + idx.headD 0 * mult [MOD 2 ^ 64] :=
      (Nat.mod_modEq _ _).trans (Nat.ModEq.add_left pos (Nat.mod_modEq _ _))
    have h2 : mult * d % 2 ^ 64 ≡ mult * d [MOD 2 ^ 64] := Nat.mod_modEq _ _
    have h3 : (pos + idx.headD 0 * mult % 2 ^ 64) % 2 ^ 64 +
        mult * d % 2 ^ 64 * flat_offset_spec drest idx.tail ≡
        pos + idx.headD 0 * mult + mult * d * flat_offset_spec drest idx.tail
          [MOD 2 ^ 64] :=
      Nat.ModEq.add h1 (Nat.ModEq.mul_right _ h2)
    have h4 := h3.trans (Nat.ModEq.refl _)
    have heq : pos + idx.headD 0 * mult + mult * d * flat_offset_spec drest idx.tail =
        pos + mult * (idx.headD 0 + d * flat_offset_spec drest idx.tail) := by ring
    rw [heq] at h4
    exact h4

/-- C4 (amended): `BasicArray::operator()` — an index vector of the wrong
length is SYNTAX; otherwise the accessed cell sits at the flat offset
`Σ idx[i] · Π_{j<i} dim[j]` reduced modulo `2^64` (the offset loop runs in
`size_t` arithmetic); when that reduced offset falls outside the flat
storage the access raises SYNTAX — with the message listing the declared
maxima and the requested indices — and returns no cell. -/
theorem basic_array_access_spec :
    ∀ (arr : BasicArray) (idx : List Nat),
      (arr.m_dimensions.length ≠ idx.length →
        basic_array_get arr idx =
          Except.error (create_basic_exception ErrorTypes.SYNTAX_ERROR
            (("Must supply ".data ++ (toString arr.m_dimensions.length).data) ++
              " indexes to address array".data))) ∧
      (arr.m_dimensions.length = idx.length →
        (flat_offset_spec arr.m_dimensions idx % 2 ^ 64 < arr.m_values.length →
          basic_array_get arr idx =
            Except.ok (arr.m_values.getD
              (flat_offset_spec arr.m_dimensions idx % 2 ^ 64) EMPTY_BASIC_VALUE)) ∧
        (¬ flat_offset_spec arr.m_dimensions idx % 2 ^ 64 < arr.m_values.length →
          basic_array_get arr idx =
            Except.error (create_basic_exception ErrorTypes.SYNTAX_ERROR
              (array_out_of_bounds_message arr idx)))) := by
  intro arr idx
  have hoff : array_offset_go arr.m_dimensions idx 0 1 =
      flat_offset_spec arr.m_dimensions idx % 2 ^ 64 := by
    rw [array_offset_go_spec arr.m_dimensions idx 0 1 (by norm_num)]
    simp
  refine ⟨fun hne => ?_, fun heq => ⟨fun hin => ?_, fun hout => ?_⟩⟩
  · have hofs : basic_array_offset arr idx =
        Except.error (create_basic_exception ErrorTypes.SYNTAX_ERROR
          (("Must supply ".data ++ (toString arr.m_dimensions.length).data) ++
            " indexes to address array".data)) := by
      simp only [basic_array_offset]
      rw [if_pos hne]
    simp only [basic_array_get, hofs, bind, Except.bind]
  · have hofs : basic_array_offset arr idx =
        Except.ok (flat_offset_spec arr.m_dimensions idx % 2 ^ 64) := by
      simp only [basic_array_offset]
      rw [if_neg (show ¬ arr.m_dimensions.length ≠ idx.length by omega)]
      simp only [hoff]
      rw [if_pos hin]
    simp only [basic_array_get, hofs, bind, Except.bind]
    rfl
  · have hofs : basic_array_offset arr idx =
        Except.error (create_basic_exception ErrorTypes.SYNTAX_ERROR
          (array_out_of_bounds_message arr idx)) := by
      simp only [basic_array_offset]
      rw [if_neg (show ¬ arr.m_dimensions.length ≠ idx.length by omega)]
      simp only [hoff]
      rw [if_neg hout]
    simp only [basic_array_get, hofs, bind, Except.bind]

/-- Counterexample to C4 as frozen: with dimensions (10, 10) (storage 100)
and index vector (2^64 − 1, 1), the claim's flat offset
`(2^64−1)·1 + 1·10` lies far outside the storage, yet the access does not
raise SYNTAX — the `size_t` offset arithmetic wraps to 9 and the cell at
offset 9 is returned. -/
theorem basic_array_access_wrap_counterexample :
    (make_basic_array [10, 10]).m_values.length = 100 ∧
    100 < (2 ^ 64 - 1) * 1 + 1 * 10 ∧
    basic_array_get (make_basic_array [10, 10]) [2 ^ 64 - 1, 1] =
      Except.ok BasicValue.empty_v := by
  refine ⟨by rfl, by norm_num, by rfl⟩

/-- Witness for C4 (amended) at a concrete array: `DIM A(3)` with index 1
returns the (EMPTY) cell, and index 5 is the out-of-bounds SYNTAX error. -/
theorem basic_array_access_spec_witness :
    basic_array_get (make_basic_array [3]) [1] = Except.ok BasicValue.empty_v ∧
    basic_array_get (make_basic_array [3]) [5] =
      Except.error (create_basic_exception ErrorTypes.SYNTAX_ERROR
        (array_out_of_bounds_message (make_basic_array [3]) [5])) := by
  constructor
  · have h := ((basic_array_access_spec (make_basic_array [3]) [1]).2 (by rfl)).1
      (by decide)
    rw [h]
    rfl
  · exact ((basic_array_access_spec (make_basic_array [3]) [5]).2 (by rfl)).2
      (by decide)

theorem set_program_it_ok {st : ExecState} {n off : Int} {st1 : ExecState}
    (h : set_program_it st n off = Except.ok st1) :
    st1.m_program_stack = st.m_program_stack ∧ st1.m_run_mode = st.m_run_mode := by
  simp only [set_program_it] at h
  split at h
  · exact absurd h (by simp)
  · split at h
    · injection h with h2
      rw [← h2]
      exact ⟨rfl, rfl⟩
    · exact absurd h (by simp)

theorem keyword_GOTO_ok {st : ExecState} {arg : List Char} {st1 : ExecState} {b : Bool}
    (h : keyword_GOTO st arg = Except.ok (st1, b)) :
    st1.m_program_stack = st.m_program_stack := by
  simp only [keyword_GOTO, bind, Except.bind] at h
  split at h
  · exact absurd h (by simp)
  · split at h
    · exact absurd h (by simp)
    · split at h
      · exact absurd h (by simp)
      · rename_i n hn
        split at h
        · exact absurd h (by simp)
        · rename_i st2 hst2
          simp only [pure, Except.pure] at h
          injection h with h2
          have hfields := set_program_it_ok hst2
          have : st1 = st2 := congrArg Prod.fst h2.symm
          rw [this]
          exact hfields.1

/-- C5: in Deferred mode GOSUB pushes exactly one entry on the return stack
and RETURN pops exactly one, so a matched GOSUB/RETURN pair restores the
stack size; and RETURN with an empty return stack raises SYNTAX (the error
is thrown before anything is mutated, so the stack is still empty). -/
theorem gosub_return_stack_balance :
    (∀ (st : ExecState) (arg : List Char) (st1 : ExecState) (b : Bool),
      keyword_GOSUB st arg = Except.ok (st1, b) →
      st1.m_program_stack.length = st.m_program_stack.length + 1) ∧
    (∀ (st : ExecState) (arg : List Char) (st1 : ExecState) (b : Bool),
      keyword_RETURN st arg = Except.ok (st1, b) →
      st.m_program_stack.length = st1.m_program_stack.length + 1) ∧
    (∀ (st : ExecState) (arg arg2 : List Char) (st1 st2 : ExecState) (b1 b2 : Bool),
      keyword_GOSUB st arg = Except.ok (st1, b1) →
      keyword_RETURN st1 arg2 = Except.ok (st2, b2) →
      st2.m_program_stack.length = st.m_program_stack.length) ∧
    (∀ (st : ExecState) (arg : List Char),
      st.m_run_mode = RunMode.DEFERRED →
      st.m_program_stack = [] →
      keyword_RETURN st arg =
        Except.error (create_basic_exception ErrorTypes.SYNTAX_ERROR
          "Attempt to RETURN without a preceding GOSUB".data)) := by
  have hgosub : ∀ (st : ExecState) (arg : List Char) (st1 : ExecState) (b : Bool),
      keyword_GOSUB st arg = Except.ok (st1, b) →
      st1.m_program_stack.length = st.m_program_stack.length + 1 := by
    intro st arg st1 b h
    simp only [keyword_GOSUB] at h
    split at h
    · exact absurd h (by simp)
    · have := keyword_GOTO_ok h
      rw [this]
      rfl
  have hreturn : ∀ (st : ExecState) (arg : List Char) (st1 : ExecState) (b : Bool),
      keyword_RETURN st arg = Except.ok (st1, b) →
      st.m_program_stack.length = st1.m_program_stack.length + 1 := by
    intro st arg st1 b h
    simp only [keyword_RETURN, bind, Except.bind] at h
    split at h
    · exact absurd h (by simp)
    · split at h
      · exact absurd h (by simp)
      · rename_i it rest hstack
        split at h
        · exact absurd h (by simp)
        · split at h
          · exact absurd h (by simp)
          · rename_i st2 hst2
            simp only [pure, Except.pure] at h
            injection h with h2
            have hfields := set_program_it_ok hst2
            have hst1 : st1 = st2 := congrArg Prod.fst h2.symm
            rw [hstack, hst1, hfields.1]
            rfl
  refine ⟨hgosub, hreturn, ?_, ?_⟩
  · intro st arg arg2 st1 st2 b1 b2 h1 h2
    have e1 := hgosub st arg st1 b1 h1
    have e2 := hreturn st1 arg2 st2 b2 h2
    omega
  · intro st arg hmode hstack
    simp only [keyword_RETURN, hstack, hmode]
    rfl

/-- The concrete three-line program used by the C5 witness. -/
def c5_program : List ProgramLine :=
  [((-1 : Int), ([] : List Char)), ((10 : Int), "GOSUB 100".data),
   ((100 : Int), "RETURN".data)]

/-- The C5 witness state: cursor on line 10, Deferred mode, empty stack. -/
def c5_state : ExecState :=
  { m_program := c5_program, m_program_it := 1, m_program_stack := [],
    m_run_mode := RunMode.DEFERRED }

/-- The state after the witness GOSUB: one pushed cursor. -/
def c5_state_pushed : ExecState :=
  { m_program := c5_program, m_program_it := 1, m_program_stack := [1],
    m_run_mode := RunMode.DEFERRED }

/-- Witness for C5: on the concrete program, `GOSUB 100` succeeds and grows
the stack from 0 to 1 entries, the matched `RETURN` succeeds and shrinks it
back, and `RETURN` on the empty stack is the SYNTAX error. -/
theorem gosub_return_stack_balance_witness :
    c5_state_pushed.m_program_stack.length = c5_state.m_program_stack.length + 1 ∧
    c5_state_pushed.m_program_stack.length = c5_state.m_program_stack.length + 1 ∧
    keyword_RETURN c5_state "".data =
      Except.error (create_basic_exception ErrorTypes.SYNTAX_ERROR
        "Attempt to RETURN without a preceding GOSUB".data) :=
  ⟨gosub_return_stack_balance.1 c5_state "100".data c5_state_pushed true (by rfl),
   gosub_return_stack_balance.2.1 c5_state_pushed [] c5_state true (by rfl),
   gosub_return_stack_balance.2.2.2 c5_state "".data rfl rfl⟩

/-- Counterexample to C7 as frozen: `add_variable` stores the caller's name
verbatim (`m_variables[std::move(name)] = value`), so a variable added
under the lower-case name "x" is *not* found by `is_variable` under "X" —
nor even under "x", because every lookup upper-cases its probe. -/
theorem add_variable_verbatim_counterexample :
    Except.map (fun e => is_variable e "X".data)
        (add_variable default_env "x".data (basic_value_integer 1)) =
      Except.ok false ∧
    Except.map (fun e => is_variable e "x".data)
        (add_variable default_env "x".data (basic_value_integer 1)) =
      Except.ok false := ⟨rfl, rfl⟩

/-- The environment produced by `let_helper("x=1")` on a fresh engine: the
variable is stored under the canonical upper-case key "X". -/
def c7_env : Env :=
  { default_env with m_variables := [("X".data, basic_value_integer 1)] }

/-- C7 (amended): lookups upper-case the probed name, and the
`let_helper`/`get_variable` creation path stores the upper-cased key — so
`let_helper("X=1")` and `let_helper("x=1")` are the same assignment, the
variable is stored under "X" and found under either casing by
`is_variable` and `get_variable_constant`.  But `add_variable` (like
`add_constant` and `add_array_variable`) stores the caller's name
verbatim, so a variable created through it under a non-canonical name is
not found. -/
theorem symbol_name_canonicalisation :
    (∀ (env : Env) (fuel : Nat),
      let_helper env fuel "X=1".data true = let_helper env fuel "x=1".data true) ∧
    let_helper default_env 1000 "x=1".data true = Except.ok (c7_env, true) ∧
    is_variable c7_env "x".data = true ∧
    is_variable c7_env "X".data = true ∧
    get_variable_constant c7_env 10 "x".data = Except.ok (basic_value_integer 1) ∧
    get_variable_constant c7_env 10 "X".data = Except.ok (basic_value_integer 1) ∧
    (∀ (env : Env) (name : List Char) (v : BasicValue) (env' : Env),
      add_variable env name v = Except.ok env' →
      env'.m_variables = map_set env.m_variables name v) := by
  refine ⟨fun env fuel => rfl, rfl, rfl, rfl, rfl, rfl, ?_⟩
  intro env name v env' h
  simp only [add_variable] at h
  split at h
  · exact absurd h (by simp)
  · split at h
    · exact absurd h (by simp)
    · injection h with h2
      rw [← h2]

/-- Witness for C7: the `add_variable` clause applied at a concrete fresh
environment and name. -/
theorem symbol_name_canonicalisation_witness :
    ({ default_env with m_variables := [("y".data, basic_value_integer 2)] } : Env).m_variables =
      map_set default_env.m_variables "y".data (basic_value_integer 2) :=
  symbol_name_canonicalisation.2.2.2.2.2.2 default_env "y".data (basic_value_integer 2)
    ({ default_env with m_variables := [("y".data, basic_value_integer 2)] }) (by rfl)

/-- C8: the IF keyword — the THEN form works (the example condition
`1<2 THEN 30` evaluates true and the pure-integer suffix is rewritten to
`GOTO  30` and dispatched), but the GOTO form is unreachable: the
`is_then_goto` helper returns "does the 4-character window equal THEN"
whenever its guard holds (the guard does not depend on the candidate), so
`GOTO` is never matched and `IF 1<2 GOTO 30` raises SYNTAX instead of
branching. -/
theorem if_keyword_goto_form_broken :
    (∀ dispatch : List Char → Except Failure Bool,
      keyword_IF default_env 1000 dispatch "1<2 THEN 30".data =
        dispatch "GOTO  30".data) ∧
    (∀ dispatch : List Char → Except Failure Bool,
      keyword_IF default_env 1000 dispatch "1<2 GOTO 30".data =
        Except.error (create_basic_exception ErrorTypes.SYNTAX_ERROR
          "Unable to find end of condition in IF keyword".data)) ∧
    (∀ (parse_string : List Char) (pos : Nat),
      is_then_goto parse_string pos =
        (is_then_goto_check parse_string pos "THEN".data).getD false) := by
  refine ⟨fun dispatch => rfl, fun dispatch => rfl, ?_⟩
  intro ps pos
  unfold is_then_goto
  cases hthen : is_then_goto_check ps pos "THEN".data with
  | some b => simp
  | none =>
    have hgoto : is_then_goto_check ps pos "GOTO".data = none := by
      by_cases hc : (pos : Int) + 4 < ((char_at ps pos).toNat : Int)
      · exfalso
        unfold is_then_goto_check at hthen
        rw [if_pos (by simpa using hc)] at hthen
        exact Option.noConfusion hthen
      · unfold is_then_goto_check
        rw [if_neg (by simpa using hc)]
    rw [hgoto]
    simp

/-- Counterexample to C9 as frozen: `MID$("HELLO", 2, 0)` — a non-negative
length — raises SYNTAX ("The len parameter of MID$ must be positive", the
`1 > len` check) instead of returning the empty substring. -/
theorem mid_len_zero_counterexample :
    function_MID_dollar [basic_value_string "HELLO".data, basic_value_integer 2,
        basic_value_integer 0] =
      Except.error (create_basic_exception ErrorTypes.SYNTAX_ERROR
        "The len parameter of MID$ must be positive".data) := rfl

/-- C9 (amended): MID$ uses a 1-based start: `start < 1` raises SYNTAX, and
`len < 1` (not merely negative `len` — zero is rejected too) raises SYNTAX;
for `start ≥ 1`, `len ≥ 1` and `start − 1 ≤ len(s)` it returns the
substring of length `len` (clamped to the end) beginning at character
`start`; in particular `MID$("HELLO", 2, 3)` is `"ELL"`. -/
theorem mid_dollar_semantics :
    (∀ (s : List Char) (start len : Int),
      start < 1 →
        function_MID_dollar [basic_value_string s, basic_value_integer start,
          basic_value_integer len] =
          Except.error (create_basic_exception ErrorTypes.SYNTAX_ERROR
            "The start parameter of MID$ must be greater than zero".data)) ∧
    (∀ (s : List Char) (start len : Int),
      1 ≤ start → len < 1 →
        function_MID_dollar [basic_value_string s, basic_value_integer start,
          basic_value_integer len] =
          Except.error (create_basic_exception ErrorTypes.SYNTAX_ERROR
            "The len parameter of MID$ must be positive".data)) ∧
    (∀ (s : List Char) (start len : Int),
      1 ≤ start → 1 ≤ len → start - 1 ≤ (s.length : Int) →
        function_MID_dollar [basic_value_string s, basic_value_integer start,
          basic_value_integer len] =
          Except.ok (basic_value_string ((s.drop (start - 1).toNat).take len.toNat))) ∧
    function_MID_dollar [basic_value_string "HELLO".data, basic_value_integer 2,
        basic_value_integer 3] =
      Except.ok (basic_value_string "ELL".data) := by
  refine ⟨?_, ?_, ?_, rfl⟩
  · intro s start len h
    show (if 1 > start then _ else _) = _
    rw [if_pos (by omega)]
  · intro s start len h1 h2
    show (if 1 > start then _ else _) = _
    rw [if_neg (by omega)]
    show (if 1 > len then _ else _) = _
    rw [if_pos (by omega)]
  · intro s start len h1 h2 h3
    show (if 1 > start then _ else _) = _
    rw [if_neg (by omega)]
    show (if 1 > len then _ else _) = _
    rw [if_neg (by omega)]
    show (if start - 1 > (s.length : Int) then _ else _) = _
    rw [if_neg (by omega)]
    rfl

/-- Witness for C9 (amended): the three hypothesised clauses instantiated
at concrete arguments. -/
theorem mid_dollar_semantics_witness :
    function_MID_dollar [basic_value_string "AB".data, basic_value_integer 0,
        basic_value_integer 1] =
      Except.error (create_basic_exception ErrorTypes.SYNTAX_ERROR
        "The start parameter of MID$ must be greater than zero".data) ∧
    function_MID_dollar [basic_value_string "AB".data, basic_value_integer 1,
        basic_value_integer 0] =
      Except.error (create_basic_exception ErrorTypes.SYNTAX_ERROR
        "The len parameter of MID$ must be positive".data) ∧
    function_MID_dollar [basic_value_string "AB".data, basic_value_integer 2,
        basic_value_integer 1] =
      Except.ok (basic_value_string (("AB".data.drop (((2 : Int)) - 1).toNat).take
        ((1 : Int)).toNat)) :=
  ⟨mid_dollar_semantics.1 "AB".data 0 1 (by norm_num),
   mid_dollar_semantics.2.1 "AB".data 1 0 (by norm_num) (by norm_num),
   mid_dollar_semantics.2.2.1 "AB".data 2 1 (by norm_num) (by norm_num) (by norm_num)⟩

end DawBasic
